import Mathlib

/-!
Verification development for the gateway-manager subsystem of
openclaw-team-control (file `server/gateway-manager.js`).

The JavaScript class `GatewayManager` is shallowly embedded as pure Lean
functions over an explicit `ManagerState`.  Modelling conventions, used
throughout and noted again at the definitions they affect:

* JS `Map`s are association lists `List (String × _)` in insertion order;
  `Map.get` is `getA` (first matching key), `Map.set` is `setA` (replace in
  place if present, else append — matching Map's iteration-order semantics),
  `Map.delete` is a filter on the key.
* A JS string-valued field that can be `undefined`, `null` or a string is an
  `Option String`; the code only ever distinguishes these values by
  truthiness, and the empty string is falsy, so all falsy values are
  collapsed to `none` by `truthy` at the points where the code tests them.
* Asynchronous callbacks (socket close, timer fire, HTTP probe completion)
  are modelled as explicit state-transition functions taking the outcome of
  the I/O as an argument; promise settlement is returned as a `Settle` value.
* `emit` calls are collected in a returned `List Event`.
-/

namespace TeamControl

/-- JS truthiness for string-valued fields: `null`, `undefined` and `""` are
falsy; every other string is truthy.  `truthy o` is `o` with falsy values
collapsed to `none`. -/
def truthy : Option String → Option String
  | some s => if s = "" then none else some s
  | none => none

/-- Boolean truthiness test of a string-valued field (JS `!!x`). -/
def jsTruthyStr : Option String → Bool
  | some s => s ≠ ""
  | none => false

/-- JS `a || b` on two string-valued fields. -/
def jsOrOpt (a b : Option String) : Option String :=
  match truthy a with
  | some v => some v
  | none => b

/-- Substring containment, JS `String.prototype.includes`. -/
def strContains (s sub : String) : Bool :=
  decide (sub.data <:+: s.data)

/-- JS whitespace for `String.prototype.trim` (the characters relevant
here). -/
def jsIsWhitespace (c : Char) : Bool :=
  c = ' ' ∨ c = '\t' ∨ c = '\n' ∨ c = '\r'

/-- JS `String.prototype.trim`. -/
def jsTrim (s : String) : String :=
  String.mk (((s.data.dropWhile jsIsWhitespace).reverse.dropWhile jsIsWhitespace).reverse)

/-- JS `String.prototype.startsWith`. -/
def jsStartsWith (s pre : String) : Bool :=
  pre.data.isPrefixOf s.data

/-- JS `String.prototype.endsWith`. -/
def jsEndsWith (s suf : String) : Bool :=
  suf.data.reverse.isPrefixOf s.data.reverse

/-- JS `String.prototype.split` with a single-character separator. -/
def splitOnCharAux (sep : Char) : List Char → List Char → List String
  | [], acc => [String.mk acc.reverse]
  | c :: rest, acc =>
    if c = sep then String.mk acc.reverse :: splitOnCharAux sep rest []
    else splitOnCharAux sep rest (c :: acc)

/-- JS `s.split(sep)` for a one-character separator `sep`. -/
def splitOnChar (sep : Char) (s : String) : List String :=
  splitOnCharAux sep s.data []

/-- Split a character list at the first occurrence of a (nonempty) separator
substring: `some (before, after)` or `none` when the separator does not
occur. -/
def breakOnSubstr (sep : List Char) : List Char → Option (List Char × List Char)
  | [] => if sep = [] then some ([], []) else none
  | c :: rest =>
    if sep.isPrefixOf (c :: rest) then some ([], (c :: rest).drop sep.length)
    else (breakOnSubstr sep rest).map (fun p => (c :: p.1, p.2))

/-- Lexicographic comparison of character lists by code point — the order JS
`Array.prototype.sort()` applies to an array of strings. -/
def charListLe : List Char → List Char → Bool
  | [], _ => true
  | _ :: _, [] => false
  | a :: as, b :: bs =>
    if a.toNat < b.toNat then true
    else if b.toNat < a.toNat then false
    else charListLe as bs

/-- Lexicographic string comparison (JS default sort order). -/
def strLe (a b : String) : Bool :=
  charListLe a.data b.data

/-- Association-list lookup: first entry with the given key (JS `Map.get`). -/
def getA {α : Type} : List (String × α) → String → Option α
  | [], _ => none
  | p :: rest, k => if p.1 = k then some p.2 else getA rest k

/-- Key-membership test (JS `Map.has`). -/
def hasA {α : Type} (l : List (String × α)) (k : String) : Bool :=
  (getA l k).isSome

/-- JS `Map.set`: replace the value at the key in place when the key is
present, otherwise append a new entry (preserving iteration order). -/
def setA {α : Type} : List (String × α) → String → α → List (String × α)
  | [], k, v => [(k, v)]
  | p :: rest, k, v => if p.1 = k then (k, v) :: rest else p :: setA rest k v

/-- JS `Map.delete`: remove the entry with the given key. -/
def delA {α : Type} (l : List (String × α)) (k : String) : List (String × α) :=
  l.filter (fun p => ¬ p.1 = k)

theorem getA_setA_self {α : Type} (l : List (String × α)) (k : String) (v : α) :
    getA (setA l k v) k = some v := by
  induction l with
  | nil => simp [setA, getA]
  | cons p rest ih =>
    by_cases hp : p.1 = k
    · simp [setA, hp, getA]
    · simp [setA, hp, getA, ih]

theorem getA_setA_ne {α : Type} (l : List (String × α)) (k k' : String) (v : α)
    (h : k' ≠ k) : getA (setA l k v) k' = getA l k' := by
  induction l with
  | nil => simp [setA, getA, Ne.symm h]
  | cons p rest ih =>
    by_cases hp : p.1 = k
    · subst hp
      simp [setA, getA, Ne.symm h, fun hc : p.1 = k' => h (hc.symm)]
    · by_cases hp' : p.1 = k'
      · simp [setA, hp, getA, hp', h]
      · simp [setA, hp, getA, hp', ih]

/-- If every value at key `k` satisfies the filter, the lookup at `k` is
unchanged by filtering. -/
theorem getA_filter_of_true {α : Type} (l : List (String × α))
    (p : String × α → Bool) (k : String) (hp : ∀ v : α, p (k, v) = true) :
    getA (l.filter p) k = getA l k := by
  induction l with
  | nil => rfl
  | cons q rest ih =>
    by_cases hq : q.1 = k
    · have hpq : p q = true := by
        have := hp q.2
        rwa [show (k, q.2) = q by cases q; cases hq; rfl] at this
      simp [List.filter, hpq, getA, hq]
    · by_cases hpq : p q = true
      · simpa [List.filter, hpq, getA, hq] using ih
      · simp only [Bool.not_eq_true] at hpq
        rw [List.filter_cons, hpq]
        simp only [Bool.false_eq_true, if_false]
        rw [ih]
        simp [getA, hq]

theorem getA_delA_ne {α : Type} (l : List (String × α)) (k k' : String)
    (h : k' ≠ k) : getA (delA l k) k' = getA l k' := by
  unfold delA
  apply getA_filter_of_true
  intro v
  simp [h]

/-! ### URL helpers (`_normalizeUrl`, `_toWebSocketUrl`, `_toHttpUrl`,
`_deriveGatewayName`) -/

/-- Strip a single trailing slash: the JS `url.replace(/\/$/, "")`. -/
def stripTrailingSlash (url : String) : String :=
  if jsEndsWith url "/" then String.mk url.data.dropLast else url

/-- Embedding of `_normalizeUrl`: trim, prefix `http://` when the string does
not start with `http` or `ws` (a case-sensitive check), then strip one
trailing slash. -/
def normalizeUrl (url : String) : String :=
  let url := jsTrim url
  let url :=
    if ¬ jsStartsWith url "http" ∧ ¬ jsStartsWith url "ws" then "http://" ++ url else url
  stripTrailingSlash url

/-- Embedding of `_toWebSocketUrl`: `url.replace(/^http/, "ws")`. -/
def toWebSocketUrl (url : String) : String :=
  if jsStartsWith url "http" then "ws" ++ String.mk (url.data.drop 4) else url

/-- Embedding of `_toHttpUrl`: `url.replace(/^ws/, "http")`. -/
def toHttpUrl (url : String) : String :=
  if jsStartsWith url "ws" then "http" ++ String.mk (url.data.drop 2) else url

/-- Modelled host/port parsing of the JS `URL` platform builtin (library
code, not part of this repository): extract hostname and optional port from
`scheme://host:port/...`, `none` when the string has no `://` (where `new
URL` throws).  No claim depends on the derived display name. -/
def parseUrlHostPort (url : String) : Option (String × Option String) :=
  match breakOnSubstr "://".data url.data with
  | none => none
  | some (_scheme, rest) =>
    let hostPort := (splitOnChar '/' (String.mk rest)).headD ""
    match splitOnChar ':' hostPort with
    | [host] => some (host, none)
    | [host, port] => some (host, if port = "" then none else some port)
    | _ => none

/-- Embedding of `_deriveGatewayName` (on top of the modelled URL parse). -/
def deriveGatewayName (url : String) : String :=
  match parseUrlHostPort url with
  | none => "Gateway"
  | some (host, port) =>
    if host = "localhost" ∨ host = "127.0.0.1" then
      "Local Gateway (:" ++ port.getD "80" ++ ")"
    else host

/-! ### Session-key classification (`_getSessionType`, `_extractAgentId`,
`_getAgentAvatar`, `_deriveSessionLabel`) -/

/-- The regex `/^agent:[^:]+:main$/` of `_getSessionType`: the key splits on
`:` into exactly `["agent", id, "main"]` with `id` nonempty (the parts of
`splitOn` contain no colon, matching `[^:]+`). -/
def isMainKey (key : String) : Bool :=
  match splitOnChar ':' key with
  | ["agent", aid, "main"] => aid != ""
  | _ => false

/-- Embedding of `_getSessionType`: the first-match priority chain over the
session key. -/
def getSessionType (sessionKey : String) : String :=
  if sessionKey = "" then "unknown"
  else if strContains sessionKey ":cron:" then "cron"
  else if strContains sessionKey ":subagent:" then "subagent"
  else if strContains sessionKey ":group:" || strContains sessionKey ":topic:" then "group"
  else if isMainKey sessionKey then "main"
  else "chat"

/-- Raw session payload as delivered by a gateway (`sessions.list` entries and
`session:update` / `session:created` event payloads).  Every field the code
reads is present; absent/falsy fields are `none` (see the module comment). -/
structure SessionPayload where
  sessionKey : Option String := none
  key : Option String := none
  idField : Option String := none
  agentId : Option String := none
  status : Option String := none
  active : Bool := false
  label : Option String := none
  displayName : Option String := none
  channel : Option String := none
  lastActiveAt : Option String := none
  updatedAt : Option String := none
  messageCount : Option Nat := none
  totalTokens : Option Nat := none
  model : Option String := none
  contextTokens : Option Nat := none
  transcriptPath : Option String := none
  deliveryContextTo : Option String := none
deriving Repr, DecidableEq

/-- The effective session key `session.sessionKey || session.key || session.id`
(`idField` models `session.id`), `none` when all three are falsy. -/
def effKey (s : SessionPayload) : Option String :=
  jsOrOpt s.sessionKey (jsOrOpt s.key s.idField)

/-- Embedding of `_extractAgentId`: the explicit `agentId` field when truthy,
else the second segment of a key of the form `agent:{agentId}:...`. -/
def extractAgentId (s : SessionPayload) : Option String :=
  match truthy s.agentId with
  | some a => some a
  | none =>
    match effKey s with
    | none => none
    | some key =>
      let parts := splitOnChar ':' key
      if parts.head? = some "agent" ∧ 2 ≤ parts.length then parts.get? 1 else none

/-- Embedding of `_getAgentAvatar`: session-type glyphs override, then a fixed
per-agent table, then the generic default. -/
def getAgentAvatar (agentId : Option String) (sessionType : Option String) : String :=
  if sessionType = some "cron" then "⏰"
  else if sessionType = some "subagent" then "🔧"
  else if sessionType = some "group" then "👥"
  else
    match agentId with
    | some "main" => "🗿"
    | some "personal" => "🎩"
    | some "family" => "🏠"
    | some "pilot" => "🧭"
    | some "pixel" => "🖼️"
    | some "forge" => "🔥"
    | some "atlas" => "🗺️"
    | some "compass" => "🧭"
    | some "canvas" => "🎨"
    | some "cron" => "⏰"
    | _ => "🤖"

/-- The JS `st.charAt(0).toUpperCase() + st.slice(1)`. -/
def capitalizeFirst (s : String) : String :=
  match s.data with
  | [] => ""
  | c :: rest => String.mk (c.toUpper :: rest)

/-- Embedding of `_deriveSessionLabel`. -/
def deriveSessionLabel (s : SessionPayload) : String :=
  match effKey s with
  | none => "Session"
  | some key =>
    let parts := splitOnChar ':' key
    if parts.head? = some "agent" ∧ 3 ≤ parts.length then
      let st := parts.getD 2 ""
      if st = "main" then "Main Session"
      else if st = "telegram" then
        match parts.findIdx? (fun q => q = "topic") with
        | some ti =>
          match truthy (parts.get? (ti + 1)) with
          | some n => "Telegram Topic " ++ n
          | none => "Telegram"
        | none => "Telegram"
      else if st = "cron" then "Cron Job"
      else capitalizeFirst st
    else
      match truthy (some (String.mk (key.data.take 20))) with
      | some sliced => sliced
      | none => "Session"

/-! ### Entity model (agents map values, gateway records, manager state) -/

/-- One session record inside an incremental agent entity (`_updateSession`
builds these; fields exactly as the `newSession` object literal). -/
structure SessionRecord where
  sessionKey : Option String
  label : String
  channel : Option String
  status : String
  lastActive : Option String
  messageCount : Nat
deriving Repr, DecidableEq

/-- A value of the `agents` map.  The JS code stores duck-typed objects of
three shapes (full-list reconciliation, incremental reconciliation, and
`_normalizeAgent`); one structure holds the union of their fields, with
`none` for a field the producing path leaves absent. -/
structure Agent where
  id : String
  gatewayId : String
  agentId : String
  name : String
  status : String
  sessionKey : Option String := none
  sessionType : Option String := none
  channel : Option String := none
  lastActive : Option String := none
  messageCount : Option Nat := none
  totalTokens : Option Nat := none
  model : Option String := none
  avatar : Option String := none
  displayContext : Option String := none
  metaContextTokens : Option Nat := none
  metaTranscriptPath : Option String := none
  sessionCount : Option Nat := none
  sessions : Option (List SessionRecord) := none
  totalMessages : Option Nat := none
deriving Repr, DecidableEq

/-- Internal gateway state (the objects stored in `this.gateways`).
`token` is `Option String` with `none` for JS `null`.  `serverInfo` is an
opaque blob, kept as an optional string. -/
structure Gateway where
  id : String
  url : String
  name : String
  token : Option String
  autoDiscovered : Bool
  status : String
  lastSeen : Option String
  lastError : Option String
  agents : List String
  createdAt : String
  hcSuccess : Nat
  hcFailure : Nat
  serverInfo : Option String
deriving Repr, DecidableEq

/-- A gateway object as observed by callers: the fields of the returned JS
object.  `token` is `none` when the object has NO `token` property at all and
`some v` when the property is present with value `v` (`v = none` is JS
`null`); likewise `hasToken` is `none` when that property is absent.  This
lets the embedding state which fields a returned record actually carries. -/
structure GatewayRecord where
  id : String
  url : String
  name : String
  token : Option (Option String)
  hasToken : Option Bool
  autoDiscovered : Bool
  status : String
  lastSeen : Option String
  lastError : Option String
  agents : List String
  createdAt : String
  hcSuccess : Nat
  hcFailure : Nat
  serverInfo : Option String
deriving Repr, DecidableEq

/-- Embedding of `_sanitizeGateway`: spread every field except `token`, add
`hasToken: !!token`. -/
def sanitizeGateway (g : Gateway) : GatewayRecord :=
  { id := g.id, url := g.url, name := g.name,
    token := none, hasToken := some (jsTruthyStr g.token),
    autoDiscovered := g.autoDiscovered, status := g.status,
    lastSeen := g.lastSeen, lastError := g.lastError, agents := g.agents,
    createdAt := g.createdAt, hcSuccess := g.hcSuccess,
    hcFailure := g.hcFailure, serverInfo := g.serverInfo }

/-- The raw (unsanitized) gateway object as a caller-observable record: the
`token` property is present (possibly null) and there is no `hasToken`. -/
def rawGatewayRecord (g : Gateway) : GatewayRecord :=
  { id := g.id, url := g.url, name := g.name,
    token := some g.token, hasToken := none,
    autoDiscovered := g.autoDiscovered, status := g.status,
    lastSeen := g.lastSeen, lastError := g.lastError, agents := g.agents,
    createdAt := g.createdAt, hcSuccess := g.hcSuccess,
    hcFailure := g.hcFailure, serverInfo := g.serverInfo }

/-- WebSocket readyState, reduced to what the code tests. -/
inductive SocketState where
  | connecting
  | openSock
  | closedSock
deriving Repr, DecidableEq

/-- Events emitted via `this.emit(...)` that the claims observe. -/
inductive Event where
  | gatewayAdded (rec : GatewayRecord)
  | gatewayRemoved (id : String)
  | gatewayUpdate (rec : GatewayRecord)
  | agentUpdate (a : Agent)
  | agentRemoved (id : String)
deriving Repr, DecidableEq

/-- Settlement of a pending request promise. -/
inductive Settle where
  | resolved (payload : String)
  | rejected (message : String)
deriving Repr, DecidableEq

/-- The mutable state of a `GatewayManager` instance.  `pending` maps a
gateway id to the ids of its in-flight requests (the JS
`pendingRequests: Map(gatewayId -> Map(requestId -> handlers))`; the handler
closures are not data — settlements are returned by the transition
functions).  `healthTimers` is the set of gateway ids with a live interval
timer. -/
structure ManagerState where
  gateways : List (String × Gateway)
  connections : List (String × SocketState)
  pending : List (String × List String)
  healthTimers : List String
  agents : List (String × Agent)
deriving Repr, DecidableEq

/-- A fresh manager (empty maps). -/
def emptyState : ManagerState :=
  { gateways := [], connections := [], pending := [], healthTimers := [], agents := [] }

/-- `RECONNECT_DELAY` (milliseconds). -/
def RECONNECT_DELAY : Nat := 5000

/-! ### Registry operations -/

/-- The duplicate-url scan of `addGateway`: first gateway (in map iteration
order) whose stored `url` equals the normalized url. -/
def findGatewayByUrl (st : ManagerState) (url : String) : Option Gateway :=
  (st.gateways.find? (fun p => p.2.url = url)).map (fun p => p.2)

/-- Embedding of `_stopHealthCheck`: clear the interval timer. -/
def stopHealthCheck (st : ManagerState) (id : String) : ManagerState :=
  { st with healthTimers := st.healthTimers.filter (fun t => ¬ t = id) }

/-- Embedding of `_startHealthCheck`'s synchronous effect: clear any previous
timer and register a new one (the periodic callback itself is `healthTick`
below). -/
def startHealthCheck (st : ManagerState) (id : String) : ManagerState :=
  let st := stopHealthCheck st id
  { st with healthTimers := st.healthTimers ++ [id] }

/-- Embedding of `_disconnectGateway`: close and drop the socket, reject every
pending request of this gateway with "Disconnected", and delete the gateway's
correlation map.  The rejections are returned as `(requestId, settlement)`
pairs. -/
def disconnectGateway (st : ManagerState) (id : String) :
    ManagerState × List (String × Settle) :=
  let st1 := { st with connections := delA st.connections id }
  match getA st1.pending id with
  | some reqs =>
    ({ st1 with pending := delA st1.pending id },
     reqs.map (fun r => (r, Settle.rejected "Disconnected")))
  | none => (st1, [])

/-- Embedding of the synchronous part of `_connectToGateway`: tear down any
existing connection, install a fresh (empty) correlation map and a socket in
the `CONNECTING` state.  Socket callbacks are modelled separately
(`onSocketClose`, `handleResponse`); a synchronous `new WebSocket` throw is
not modelled (no claim depends on it). -/
def connectToGateway (st : ManagerState) (id : String) : ManagerState :=
  match getA st.gateways id with
  | none => st
  | some _ =>
    let (st1, _rejections) := disconnectGateway st id
    { st1 with
      pending := setA st1.pending id []
      connections := setA st1.connections id SocketState.connecting }

/-- Embedding of `_updateGatewayStatus`: set status, refresh `lastSeen` when
going online (`now` stands for `new Date().toISOString()`), record the error,
and emit a sanitized `gateway:update`. -/
def updateGatewayStatus (st : ManagerState) (id status : String)
    (err : Option String) (now : String) : ManagerState × List Event :=
  match getA st.gateways id with
  | none => (st, [])
  | some gw =>
    let gw' :=
      { gw with
        status := status
        lastSeen := if status = "online" then some now else gw.lastSeen
        lastError := err }
    ({ st with gateways := setA st.gateways id gw' },
     [Event.gatewayUpdate (sanitizeGateway gw')])

/-- Arguments of `addGateway` (the destructured options object). -/
structure AddGatewayArgs where
  url : String
  name : Option String := none
  token : Option String := none
  autoDiscovered : Bool := false

/-- Embedding of `addGateway`.  `freshId` stands for the generated
`gw-{Date.now}-{random}` id and `now` for `new Date().toISOString()`.  On a
url collision the function returns the pre-existing gateway object RAW (the
JS `return gw;`), with the state untouched and nothing emitted; otherwise it
stores the new gateway, persists, emits `gateway:added` (sanitized), starts a
connection and a health check, and returns the sanitized record. -/
def addGateway (st : ManagerState) (args : AddGatewayArgs) (freshId now : String) :
    GatewayRecord × ManagerState × List Event :=
  let url := normalizeUrl args.url
  match findGatewayByUrl st url with
  | some gw => (rawGatewayRecord gw, st, [])
  | none =>
    let gateway : Gateway :=
      { id := freshId, url := url,
        name := (truthy args.name).getD (deriveGatewayName url),
        token := truthy args.token,
        autoDiscovered := args.autoDiscovered,
        status := "connecting", lastSeen := none, lastError := none,
        agents := [], createdAt := now,
        hcSuccess := 0, hcFailure := 0, serverInfo := none }
    let st1 := { st with gateways := setA st.gateways freshId gateway }
    let st2 := connectToGateway st1 freshId
    let st3 := startHealthCheck st2 freshId
    (sanitizeGateway gateway, st3, [Event.gatewayAdded (sanitizeGateway gateway)])

/-- Embedding of `removeGateway`: `false` and no change when the id is
unknown; otherwise stop health checks, disconnect (rejecting pending
requests), delete every agent of this gateway (emitting `agent:removed` for
each), delete the gateway and emit `gateway:removed`. -/
def removeGateway (st : ManagerState) (id : String) :
    Bool × ManagerState × List Event × List (String × Settle) :=
  match getA st.gateways id with
  | none => (false, st, [], [])
  | some _ =>
    let st1 := stopHealthCheck st id
    let (st2, rejections) := disconnectGateway st1 id
    let removed := st2.agents.filter (fun p => p.2.gatewayId = id)
    let st3 := { st2 with agents := st2.agents.filter (fun p => ¬ p.2.gatewayId = id) }
    let st4 := { st3 with gateways := delA st3.gateways id }
    (true, st4,
     removed.map (fun p => Event.agentRemoved p.1) ++ [Event.gatewayRemoved id],
     rejections)

/-- Embedding of `getGateways`: sanitized snapshots of every gateway. -/
def getGateways (st : ManagerState) : List GatewayRecord :=
  st.gateways.map (fun p => sanitizeGateway p.2)

/-- Embedding of `getAgents`: the values of the agents map. -/
def getAgents (st : ManagerState) : List Agent :=
  st.agents.map (fun p => p.2)

/-! ### Request correlation (`_sendRequest` timeout, `_handleGatewayMessage`
response frames, socket close) -/

/-- A response frame `{type:"res", id, ok, payload|error}`. -/
structure ResMsg where
  id : String
  ok : Bool
  payload : String := ""
  errorMessage : Option String := none
deriving Repr, DecidableEq

/-- The timeout callback of `_sendRequest` firing for request `reqId` of
gateway `gwId`: remove the correlation entry and reject with the timeout
error.  (The timer only exists while the entry does — every removal of the
entry clears it.) -/
def requestTimeoutFire (st : ManagerState) (gwId reqId method : String) :
    ManagerState × Settle :=
  let st1 :=
    match getA st.pending gwId with
    | some reqs =>
      { st with pending := setA st.pending gwId (reqs.filter (fun r => ¬ r = reqId)) }
    | none => st
  (st1, Settle.rejected ("Request timeout: " ++ method))

/-- Embedding of the `res`-frame branch of `_handleGatewayMessage`: when the
id is present in the correlation table, remove it and settle the promise
(resolve on `ok`, else reject with the error message or "Request failed");
otherwise the frame is dropped with no state change and no settlement. -/
def handleResponse (st : ManagerState) (gwId : String) (msg : ResMsg) :
    ManagerState × Option Settle :=
  match getA st.gateways gwId with
  | none => (st, none)
  | some _ =>
    match getA st.pending gwId with
    | some reqs =>
      if reqs.contains msg.id then
        ({ st with pending := setA st.pending gwId (reqs.filter (fun r => ¬ r = msg.id)) },
         some (if msg.ok then Settle.resolved msg.payload
               else Settle.rejected ((truthy msg.errorMessage).getD "Request failed")))
      else (st, none)
    | none => (st, none)

/-- Embedding of the socket `close` handler in `_connectToGateway`: mark the
gateway disconnected, drop the socket, reject every pending request of this
connection with "Connection closed: {code}" and clear (empty in place) the
correlation table, then schedule a reconnect after `RECONNECT_DELAY`.
Returns (state, emitted events, rejections, scheduled delay). -/
def onSocketClose (st : ManagerState) (id : String) (code : Nat) (now : String) :
    ManagerState × List Event × List (String × Settle) × Nat :=
  let (st1, evs) := updateGatewayStatus st id "disconnected" none now
  let st2 := { st1 with connections := delA st1.connections id }
  match getA st2.pending id with
  | some reqs =>
    ({ st2 with pending := setA st2.pending id [] },
     evs,
     reqs.map (fun r => (r, Settle.rejected ("Connection closed: " ++ toString code))),
     RECONNECT_DELAY)
  | none => (st2, evs, [], RECONNECT_DELAY)

/-- The reconnect timer body scheduled by the close handler: reconnect only
if the gateway is still registered.  Returns whether a connection attempt was
made. -/
def reconnectFire (st : ManagerState) (id : String) : Bool × ManagerState :=
  if hasA st.gateways id then (true, connectToGateway st id) else (false, st)

/-! ### Health monitor (`_startHealthCheck` tick, `_httpHealthCheck`) -/

/-- Increment `gateway.healthChecks.success` when the gateway exists
(`currentGateway?.healthChecks`; for gateways created by `addGateway` the
`healthChecks` object is always present). -/
def bumpSuccess (st : ManagerState) (id : String) : ManagerState :=
  match getA st.gateways id with
  | none => st
  | some gw => { st with gateways := setA st.gateways id { gw with hcSuccess := gw.hcSuccess + 1 } }

/-- Increment `gateway.healthChecks.failure` when the gateway exists. -/
def bumpFailure (st : ManagerState) (id : String) : ManagerState :=
  match getA st.gateways id with
  | none => st
  | some gw => { st with gateways := setA st.gateways id { gw with hcFailure := gw.hcFailure + 1 } }

/-- The test `this.connections.has(id) && readyState === WebSocket.OPEN`. -/
def isOpenSocket (st : ManagerState) (id : String) : Bool :=
  getA st.connections id = some SocketState.openSock

/-- Outcome of the HTTP probe `fetch(httpUrl + "/api/health")`: a response
with its status code, or a thrown exception (network error / abort). -/
inductive HttpOutcome where
  | response (status : Nat)
  | exception (message : String)
deriving Repr, DecidableEq

/-- Outcome of the protocol `ping` request. -/
inductive PingOutcome where
  | success
  | failure
deriving Repr, DecidableEq

/-- WHATWG `Response.ok`: status in the 2xx range. -/
def responseOk (status : Nat) : Bool :=
  200 ≤ status ∧ status ≤ 299

/-- Embedding of `_httpHealthCheck` given the probe outcome.  A 2xx response
sets the gateway online, bumps the success counter and — only when no open
socket exists — initiates a fresh connection; a non-2xx response sets status
"error" with message "HTTP {status}" and bumps the failure counter; an
exception sets status "offline" and bumps the failure counter.  The returned
Bool reports whether a connection attempt was initiated. -/
def httpHealthCheck (st : ManagerState) (id : String) (outcome : HttpOutcome)
    (now : String) : ManagerState × List Event × Bool :=
  match getA st.gateways id with
  | none => (st, [], false)
  | some _ =>
    match outcome with
    | HttpOutcome.response status =>
      if responseOk status then
        let (st1, evs) := updateGatewayStatus st id "online" none now
        let st2 := bumpSuccess st1 id
        if isOpenSocket st2 id then (st2, evs, false)
        else (connectToGateway st2 id, evs, true)
      else
        let (st1, evs) := updateGatewayStatus st id "error"
          (some ("HTTP " ++ toString status)) now
        (bumpFailure st1 id, evs, false)
    | HttpOutcome.exception msg =>
      let (st1, evs) := updateGatewayStatus st id "offline" (some msg) now
      (bumpFailure st1 id, evs, false)

/-- One tick of the `_startHealthCheck` interval: stop the timer when the
gateway is gone; otherwise try the protocol `ping`, going online on success
and falling back to the HTTP probe on failure. -/
def healthTick (st : ManagerState) (id : String) (ping : PingOutcome)
    (httpOut : HttpOutcome) (now : String) : ManagerState × List Event × Bool :=
  match getA st.gateways id with
  | none => (stopHealthCheck st id, [], false)
  | some _ =>
    match ping with
    | PingOutcome.success =>
      let (st1, evs) := updateGatewayStatus st id "online" none now
      (bumpSuccess st1 id, evs, false)
    | PingOutcome.failure => httpHealthCheck st id httpOut now

/-! ### Session reconciler -/

/-- Maximum of a list of strings; models the JS `.sort().pop()` on the
(lexicographically sorted) array of timestamps, which returns its greatest
element. -/
def listMaxStr : List String → Option String
  | [] => none
  | t :: rest =>
    match listMaxStr rest with
    | none => some t
    | some m => some (if strLe t m then m else t)

/-- The `.map(s => s.lastActive).filter(Boolean).sort().pop()` pipeline:
greatest truthy `lastActive` of the session records, `none` when there is
none. -/
def maxTruthy (l : List SessionRecord) : Option String :=
  listMaxStr (l.filterMap (fun r => truthy r.lastActive))

/-- The agent entity built for one session by `_updateSessionsFromGateway`
(full-list reconciliation; one entity per session, keyed by
`{gatewayId}:{sessionKey}`). -/
def buildListAgent (gatewayId sessionKey : String) (s : SessionPayload) : Agent :=
  let agentId := extractAgentId s
  let sessionType := getSessionType sessionKey
  let isActive := s.status = some "active" || s.active
  let displayName :=
    match jsOrOpt s.label s.displayName with
    | some d => d
    | none =>
      if sessionType = "cron" then "Scheduled Task"
      else if sessionType = "subagent" then (truthy s.label).getD "Sub-agent"
      else if sessionType = "group" then (truthy s.displayName).getD "Group Chat"
      else if sessionType = "main" then "Main Chat"
      else deriveSessionLabel s
  { id := gatewayId ++ ":" ++ sessionKey
    gatewayId := gatewayId
    agentId := (truthy agentId).getD "unknown"
    sessionKey := some sessionKey
    sessionType := some sessionType
    name := displayName
    status := if isActive then "active" else "idle"
    channel := some ((truthy s.channel).getD "unknown")
    lastActive := jsOrOpt s.lastActiveAt s.updatedAt
    messageCount := some (s.messageCount.getD 0)
    totalTokens := some (s.totalTokens.getD 0)
    model := s.model
    avatar := some (getAgentAvatar agentId (some sessionType))
    displayContext := jsOrOpt s.displayName s.deliveryContextTo
    metaContextTokens := s.contextTokens
    metaTranscriptPath := s.transcriptPath }

/-- JS `Set` insertion order with duplicates dropped (`Array.from(seenIds)`):
keep the first occurrence of each element. -/
def firstDedup : List String → List String
  | [] => []
  | x :: rest => x :: (firstDedup rest).filter (fun y => ¬ y = x)

/-- The per-session loop of `_updateSessionsFromGateway` over the batch:
returns the updated agents map, the `agent:update` events emitted (in order),
and the composite ids seen.  A session is stored (and an update emitted) iff
no structurally equal entity is already present — `JSON.stringify` equality
of two objects built by this same constructor is structural equality. -/
def updateSessionsLoop (gatewayId : String) :
    List SessionPayload → List (String × Agent) →
    List (String × Agent) × List Event × List String
  | [], ags => (ags, [], [])
  | s :: rest, ags =>
    match effKey s with
    | none => updateSessionsLoop gatewayId rest ags
    | some sessionKey =>
      let compositeId := gatewayId ++ ":" ++ sessionKey
      let a := buildListAgent gatewayId sessionKey s
      let unchanged :=
        match getA ags compositeId with
        | some existing => existing == a
        | none => false
      if unchanged then
        let (ags1, evs, seen) := updateSessionsLoop gatewayId rest ags
        (ags1, evs, compositeId :: seen)
      else
        let (ags1, evs, seen) := updateSessionsLoop gatewayId rest (setA ags compositeId a)
        (ags1, Event.agentUpdate a :: evs, compositeId :: seen)

/-- Embedding of `_updateSessionsFromGateway`: upsert every session of the
batch, then delete (emitting `agent:removed`) every entity of this gateway
whose composite id was not seen, and store the seen ids on the gateway. -/
def updateSessionsFromGateway (st : ManagerState) (gatewayId : String)
    (sessions : List SessionPayload) : ManagerState × List Event :=
  match getA st.gateways gatewayId with
  | none => (st, [])
  | some gw =>
    let (ags1, updateEvents, seen) := updateSessionsLoop gatewayId sessions st.agents
    let removed := ags1.filter (fun p => p.2.gatewayId = gatewayId ∧ ¬ seen.contains p.1)
    let ags2 := ags1.filter (fun p => ¬ (p.2.gatewayId = gatewayId ∧ ¬ seen.contains p.1))
    let gw' := { gw with agents := firstDedup seen }
    ({ st with
       agents := ags2
       gateways := setA st.gateways gatewayId gw' },
     updateEvents ++ removed.map (fun p => Event.agentRemoved p.1))

/-- The `newSession` record literal of `_updateSession`. -/
def buildSessionRecord (sd : SessionPayload) : SessionRecord :=
  { sessionKey := effKey sd
    label := (truthy sd.label).getD (deriveSessionLabel sd)
    channel := sd.channel
    status := (truthy sd.status).getD (if sd.active then "active" else "idle")
    lastActive := jsOrOpt sd.lastActiveAt sd.updatedAt
    messageCount := sd.messageCount.getD 0 }

/-- The `findIndex`-replace-else-push upsert of `_updateSession` on the
existing `sessions` array: replace the first record with the same session
key, else append. -/
def upsertSessionRec (ns : SessionRecord) : List SessionRecord → List SessionRecord
  | [] => [ns]
  | r :: rest =>
    if r.sessionKey = ns.sessionKey then ns :: rest
    else r :: upsertSessionRec ns rest

/-- Embedding of `_updateSession` (incremental reconciliation, keyed by
`{gatewayId}:{agentId}`).  Returns `none` exactly where the JS code throws: a
stored entity without a `sessions` array (one built by the full-list path)
makes `existingAgent.sessions.findIndex` a TypeError.  Otherwise returns the
new state and the emitted events. -/
def updateSession (gatewayId : String) (sd : SessionPayload) (st : ManagerState) :
    Option (ManagerState × List Event) :=
  match truthy (extractAgentId sd) with
  | none => some (st, [])
  | some agentId =>
    let compositeId := gatewayId ++ ":" ++ agentId
    let ns := buildSessionRecord sd
    match getA st.agents compositeId with
    | some ag =>
      match ag.sessions with
      | none => none
      | some sess =>
        let found := sess.any (fun r => r.sessionKey = ns.sessionKey)
        let sess' := upsertSessionRec ns sess
        let ag' :=
          { ag with
            sessions := some sess'
            sessionCount := if found then ag.sessionCount else some sess'.length
            totalMessages := some (sess'.map (fun r => r.messageCount)).sum
            status := if sess'.any (fun r => r.status = "active") then "active" else "idle"
            lastActive :=
              match maxTruthy sess' with
              | some m => some m
              | none => ag.lastActive }
        some ({ st with agents := setA st.agents compositeId ag' },
              [Event.agentUpdate ag'])
    | none =>
      let ag : Agent :=
        { id := compositeId
          gatewayId := gatewayId
          agentId := agentId
          name := agentId
          status := if ns.status = "active" then "active" else "idle"
          sessionCount := some 1
          sessions := some [ns]
          lastActive := ns.lastActive
          totalMessages := some ns.messageCount
          avatar := some (getAgentAvatar (some agentId) none) }
      let st1 := { st with agents := setA st.agents compositeId ag }
      let st2 :=
        match getA st1.gateways gatewayId with
        | some gw =>
          if gw.agents.contains compositeId then st1
          else
            let gw' := { gw with agents := gw.agents ++ [compositeId] }
            { st1 with gateways := setA st1.gateways gatewayId gw' }
        | none => st1
      some (st2, [Event.agentUpdate ag])

/-- Embedding of the `session:deleted` branch of `_handleGatewayEvent`:
delete the single entity keyed `{gatewayId}:{payload.sessionKey}` when
present, emitting `agent:removed`. -/
def handleSessionDeleted (st : ManagerState) (gatewayId : String)
    (payloadSessionKey : Option String) : ManagerState × List Event :=
  match truthy payloadSessionKey with
  | none => (st, [])
  | some sk =>
    let agentId := gatewayId ++ ":" ++ sk
    if hasA st.agents agentId then
      ({ st with agents := delA st.agents agentId }, [Event.agentRemoved agentId])
    else (st, [])

/-! ### Generic lemmas about the helpers -/

theorem truthy_eq_some {o : Option String} {t : String} (h : truthy o = some t) :
    o = some t := by
  cases o with
  | none => simp [truthy] at h
  | some s =>
    by_cases hs : s = ""
    · simp [truthy, hs] at h
    · simpa [truthy, hs] using h

theorem strContains_true_ne_empty {k sub : String} (hsub : ¬ sub = "")
    (h : strContains k sub = true) : ¬ k = "" := by
  intro hk
  subst hk
  have hinf : sub.data <:+: ("" : String).data := of_decide_eq_true h
  have hnil : sub.data = [] := by simpa using hinf
  apply hsub
  cases sub with
  | mk d =>
    have hd : d = [] := hnil
    rw [hd]

theorem charListLe_refl (l : List Char) : charListLe l l = true := by
  induction l with
  | nil => rfl
  | cons c rest ih => simp [charListLe, ih]

theorem strLe_refl (s : String) : strLe s s = true :=
  charListLe_refl s.data

theorem charListLe_total (a b : List Char) :
    charListLe a b = true ∨ charListLe b a = true := by
  induction a generalizing b with
  | nil => left; rfl
  | cons x xs ih =>
    cases b with
    | nil => right; rfl
    | cons y ys =>
      rcases Nat.lt_trichotomy x.toNat y.toNat with h | h | h
      · left; simp [charListLe, h]
      · have hxy : ¬ x.toNat < y.toNat := by omega
        have hyx : ¬ y.toNat < x.toNat := by omega
        rcases ih ys with h2 | h2
        · left; simp [charListLe, hxy, hyx, h2]
        · right; simp [charListLe, hxy, hyx, h2]
      · right; simp [charListLe, h]

theorem charListLe_trans {a b c : List Char} (h1 : charListLe a b = true)
    (h2 : charListLe b c = true) : charListLe a c = true := by
  induction a generalizing b c with
  | nil => rfl
  | cons x xs ih =>
    cases b with
    | nil => simp [charListLe] at h1
    | cons y ys =>
      cases c with
      | nil => simp [charListLe] at h2
      | cons z zs =>
        by_cases hxy : x.toNat < y.toNat
        · by_cases hyz : y.toNat < z.toNat
          · simp [charListLe, show x.toNat < z.toNat by omega]
          · by_cases hzy : z.toNat < y.toNat
            · simp [charListLe, hyz, hzy] at h2
            · simp [charListLe, show x.toNat < z.toNat by omega]
        · by_cases hyx : y.toNat < x.toNat
          · simp [charListLe, hxy, hyx] at h1
          · by_cases hyz : y.toNat < z.toNat
            · simp [charListLe, show x.toNat < z.toNat by omega]
            · by_cases hzy : z.toNat < y.toNat
              · simp [charListLe, hyz, hzy] at h2
              · have hxz : ¬ x.toNat < z.toNat := by omega
                have hzx : ¬ z.toNat < x.toNat := by omega
                simp only [charListLe, hxy, hyx, if_false] at h1
                simp only [charListLe, hyz, hzy, if_false] at h2
                simp [charListLe, hxz, hzx, ih h1 h2]

theorem strLe_total (a b : String) : strLe a b = true ∨ strLe b a = true :=
  charListLe_total a.data b.data

theorem strLe_trans {a b c : String} (h1 : strLe a b = true)
    (h2 : strLe b c = true) : strLe a c = true :=
  charListLe_trans h1 h2

theorem listMaxStr_eq_none_iff (l : List String) : listMaxStr l = none ↔ l = [] := by
  cases l with
  | nil => simp [listMaxStr]
  | cons t rest =>
    simp only [listMaxStr]
    cases listMaxStr rest <;> simp

theorem listMaxStr_mem {l : List String} {m : String} (h : listMaxStr l = some m) :
    m ∈ l := by
  induction l with
  | nil => simp [listMaxStr] at h
  | cons t rest ih =>
    simp only [listMaxStr] at h
    cases hr : listMaxStr rest with
    | none =>
      rw [hr] at h
      simp only [Option.some.injEq] at h
      simp [← h]
    | some m0 =>
      rw [hr] at h
      simp only [Option.some.injEq] at h
      by_cases hle : strLe t m0 = true
      · rw [if_pos hle] at h
        have hr2 : listMaxStr rest = some m := by rw [hr, h]
        exact List.mem_cons_of_mem _ (ih hr2)
      · rw [if_neg hle] at h
        simp [← h]

theorem listMaxStr_ge {l : List String} :
    ∀ {m : String}, listMaxStr l = some m → ∀ t ∈ l, strLe t m = true := by
  induction l with
  | nil => intro m h; simp [listMaxStr] at h
  | cons t rest ih =>
    intro m h
    simp only [listMaxStr] at h
    cases hr : listMaxStr rest with
    | none =>
      rw [hr] at h
      simp only [Option.some.injEq] at h
      have : rest = [] := (listMaxStr_eq_none_iff rest).mp hr
      subst this
      intro x hx
      simp only [List.mem_singleton] at hx
      subst hx
      rw [← h]
      exact strLe_refl x
    | some m0 =>
      rw [hr] at h
      simp only [Option.some.injEq] at h
      intro x hx
      rcases List.mem_cons.mp hx with hx | hx
      · subst hx
        by_cases hle : strLe x m0 = true
        · rw [if_pos hle] at h
          rw [← h]; exact hle
        · rw [if_neg hle] at h
          rw [← h]; exact strLe_refl x
      · have hxm0 : strLe x m0 = true := ih hr x hx
        by_cases hle : strLe t m0 = true
        · rw [if_pos hle] at h
          rw [← h]; exact hxm0
        · rw [if_neg hle] at h
          rcases strLe_total t m0 with htot | htot
          · exact absurd htot hle
          · rw [← h]
            exact strLe_trans hxm0 htot

theorem mem_upsertSessionRec (ns : SessionRecord) (l : List SessionRecord) :
    ns ∈ upsertSessionRec ns l := by
  induction l with
  | nil => simp [upsertSessionRec]
  | cons r rest ih =>
    by_cases h : r.sessionKey = ns.sessionKey
    · simp [upsertSessionRec, h]
    · simp only [upsertSessionRec, if_neg h]
      exact List.mem_cons_of_mem _ ih

theorem getA_filter_of_found {α : Type} {l : List (String × α)} {k : String} {a : α}
    (p : String × α → Bool) (h : getA l k = some a) (hp : p (k, a) = true) :
    getA (l.filter p) k = some a := by
  induction l with
  | nil => simp [getA] at h
  | cons q rest ih =>
    by_cases hq : q.1 = k
    · have hqa : q.2 = a := by
        simp only [getA, hq, if_true, Option.some.injEq] at h
        exact h
      have hpq : p q = true := by
        rw [show q = (k, a) by cases q; cases hq; cases hqa; rfl]
        exact hp
      simp [List.filter_cons, hpq, getA, hq, hqa]
    · have h' : getA rest k = some a := by
        simpa [getA, hq] using h
      by_cases hpq : p q = true
      · simp only [List.filter_cons, hpq, if_true]
        simpa [getA, hq] using ih h'
      · simp only [Bool.not_eq_true] at hpq
        simp only [List.filter_cons, hpq]
        simp only [Bool.false_eq_true, if_false]
        exact ih h'

theorem contains_filter_ne (l : List String) (x : String) :
    (l.filter (fun q => ¬ q = x)).contains x = false := by
  induction l with
  | nil => rfl
  | cons q rest ih =>
    by_cases hq : q = x
    · simpa [List.filter_cons, hq] using ih
    · simp [List.filter_cons, hq, List.contains_cons, ih, Ne.symm hq]

theorem string_append_right_cancel {a b c : String} (h : a ++ b = a ++ c) : b = c := by
  have hdata : a.data ++ b.data = a.data ++ c.data := by
    have := congrArg String.data h
    simpa [String.data_append] using this
  have hbc : b.data = c.data := List.append_cancel_left hdata
  cases b; cases c
  exact congrArg String.mk hbc

/-! ## Claim C4 — session-type classification priority chain -/

/-- C4: session-type classification is a first-match priority chain over the
session key — a key containing `:cron:` is cron; else one containing
`:subagent:` is subagent; else one containing `:group:` or `:topic:` is
group; else a key matching exactly `agent:{id}:main` is main; otherwise
chat.  In particular `agent:main:telegram:group:-123:topic:1` classifies as
group, not main. -/
theorem c4_session_type_priority_chain (k : String) :
    getSessionType "agent:main:telegram:group:-123:topic:1" = "group" ∧
    (strContains k ":cron:" = true → getSessionType k = "cron") ∧
    (strContains k ":cron:" = false → strContains k ":subagent:" = true →
      getSessionType k = "subagent") ∧
    (strContains k ":cron:" = false → strContains k ":subagent:" = false →
      (strContains k ":group:" = true ∨ strContains k ":topic:" = true) →
      getSessionType k = "group") ∧
    (¬ k = "" → strContains k ":cron:" = false → strContains k ":subagent:" = false →
      strContains k ":group:" = false → strContains k ":topic:" = false →
      isMainKey k = true → getSessionType k = "main") ∧
    (¬ k = "" → strContains k ":cron:" = false → strContains k ":subagent:" = false →
      strContains k ":group:" = false → strContains k ":topic:" = false →
      isMainKey k = false → getSessionType k = "chat") := by
  refine ⟨by decide, ?_, ?_, ?_, ?_, ?_⟩
  · intro hc
    have hne := strContains_true_ne_empty (by decide) hc
    simp [getSessionType, hne, hc]
  · intro hc hs
    have hne := strContains_true_ne_empty (by decide) hs
    simp [getSessionType, hne, hc, hs]
  · intro hc hs hgt
    rcases hgt with hg | ht
    · have hne := strContains_true_ne_empty (by decide) hg
      simp [getSessionType, hne, hc, hs, hg]
    · have hne := strContains_true_ne_empty (by decide) ht
      simp [getSessionType, hne, hc, hs, ht]
  · intro hne hc hs hg ht hm
    simp [getSessionType, hne, hc, hs, hg, ht, hm]
  · intro hne hc hs hg ht hm
    simp [getSessionType, hne, hc, hs, hg, ht, hm]

/-- Witness for C4 at concrete keys: the subagent branch of the chain applied
to `agent:7:subagent:q`. -/
theorem c4_session_type_priority_chain_witness :
    getSessionType "agent:7:subagent:q" = "subagent" :=
  (c4_session_type_priority_chain "agent:7:subagent:q").2.2.1 (by decide) (by decide)

/-! ## Claim C6 — request timeout removal and dropped late responses -/

/-- C6: a pending request that times out rejects with the timeout error and
its correlation entry is removed; a response frame arriving afterwards with
that same id — or with any id absent from the table — is silently dropped,
settling nothing and leaving the state unchanged. -/
theorem c6_timeout_rejects_then_response_dropped
    (st : ManagerState) (gwId reqId method : String) (reqs : List String)
    (hp : getA st.pending gwId = some reqs) (_hin : reqs.contains reqId = true) :
    (requestTimeoutFire st gwId reqId method).2 =
      Settle.rejected ("Request timeout: " ++ method) ∧
    getA (requestTimeoutFire st gwId reqId method).1.pending gwId =
      some (reqs.filter (fun q => ¬ q = reqId)) ∧
    (reqs.filter (fun q => ¬ q = reqId)).contains reqId = false ∧
    (∀ msg : ResMsg,
      (msg.id = reqId ∨ (reqs.filter (fun q => ¬ q = reqId)).contains msg.id = false) →
      handleResponse (requestTimeoutFire st gwId reqId method).1 gwId msg =
        ((requestTimeoutFire st gwId reqId method).1, none)) := by
  have hres : requestTimeoutFire st gwId reqId method =
      ({ st with pending := setA st.pending gwId (reqs.filter (fun q => ¬ q = reqId)) },
       Settle.rejected ("Request timeout: " ++ method)) := by
    simp [requestTimeoutFire, hp]
  have hget : getA (requestTimeoutFire st gwId reqId method).1.pending gwId =
      some (reqs.filter (fun q => ¬ q = reqId)) := by
    rw [hres]
    exact getA_setA_self _ _ _
  refine ⟨by rw [hres], hget, contains_filter_ne reqs reqId, ?_⟩
  intro msg hmsg
  have hcontains : (reqs.filter (fun q => ¬ q = reqId)).contains msg.id = false := by
    rcases hmsg with hmsg | hmsg
    · rw [hmsg]; exact contains_filter_ne reqs reqId
    · exact hmsg
  unfold handleResponse
  cases hg : getA (requestTimeoutFire st gwId reqId method).1.gateways gwId with
  | none => rfl
  | some gw =>
    rw [hget]
    simp
    simpa using hcontains

/-- Witness for C6: concrete two-request table; the timeout of `r1` removes
it and a late response for `r1` is dropped. -/
def c6WitnessState : ManagerState :=
  { emptyState with pending := [("gw1", ["r1", "r2"])] }

theorem c6_timeout_rejects_then_response_dropped_witness :
    (requestTimeoutFire c6WitnessState "gw1" "r1" "ping").2 =
      Settle.rejected ("Request timeout: " ++ "ping") ∧
    getA (requestTimeoutFire c6WitnessState "gw1" "r1" "ping").1.pending "gw1" =
      some (["r1", "r2"].filter (fun q => ¬ q = "r1")) ∧
    (["r1", "r2"].filter (fun q => ¬ q = "r1")).contains "r1" = false ∧
    handleResponse (requestTimeoutFire c6WitnessState "gw1" "r1" "ping").1 "gw1"
        { id := "r1", ok := true } =
      ((requestTimeoutFire c6WitnessState "gw1" "r1" "ping").1, none) :=
  let h := c6_timeout_rejects_then_response_dropped c6WitnessState "gw1" "r1" "ping"
    ["r1", "r2"] (by decide) (by decide)
  ⟨h.1, h.2.1, h.2.2.1, h.2.2.2 { id := "r1", ok := true } (Or.inl rfl)⟩

/-! ## Claim C7 — socket close: status, single rejection, cleared table,
scheduled conditional reconnect -/

/-- The gateway record after `_updateGatewayStatus(id, "disconnected")`:
status replaced, `lastSeen` kept (only "online" refreshes it), `lastError`
reset to the default null argument. -/
def gwDisconnected (gw : Gateway) : Gateway :=
  { gw with status := "disconnected", lastError := none }

/-- C7: when a gateway's socket closes, the gateway status becomes
`disconnected`, every still-pending request of that connection is rejected
exactly once with a connection-closed error (and can settle no second time:
any later response frame is dropped against the now-empty table), the
correlation table is cleared, and a reconnect is scheduled after the fixed
5000 ms delay whose body connects only if the gateway is still registered
when it fires. -/
theorem c7_socket_close_spec
    (st : ManagerState) (id : String) (gw : Gateway) (code : Nat) (now : String)
    (reqs : List String)
    (hgw : getA st.gateways id = some gw) (hp : getA st.pending id = some reqs) :
    (getA (onSocketClose st id code now).1.gateways id).map Gateway.status =
      some "disconnected" ∧
    getA (onSocketClose st id code now).1.pending id = some [] ∧
    (onSocketClose st id code now).2.2.1 =
      reqs.map (fun q => (q, Settle.rejected ("Connection closed: " ++ toString code))) ∧
    ((onSocketClose st id code now).2.2.1.map Prod.fst = reqs) ∧
    (onSocketClose st id code now).2.2.2 = RECONNECT_DELAY ∧
    RECONNECT_DELAY = 5000 ∧
    (∀ msg : ResMsg,
      handleResponse (onSocketClose st id code now).1 id msg =
        ((onSocketClose st id code now).1, none)) ∧
    (reconnectFire (onSocketClose st id code now).1 id).1 = true ∧
    (∀ st2 : ManagerState, hasA st2.gateways id = false →
      (reconnectFire st2 id).1 = false) := by
  have hupd : updateGatewayStatus st id "disconnected" none now =
      ({ st with gateways := setA st.gateways id (gwDisconnected gw) },
       [Event.gatewayUpdate (sanitizeGateway (gwDisconnected gw))]) := by
    simp [updateGatewayStatus, hgw, gwDisconnected]
  have hres : onSocketClose st id code now =
      ({ st with
          gateways := setA st.gateways id (gwDisconnected gw)
          connections := delA st.connections id
          pending := setA st.pending id [] },
       [Event.gatewayUpdate (sanitizeGateway (gwDisconnected gw))],
       reqs.map (fun q => (q, Settle.rejected ("Connection closed: " ++ toString code))),
       RECONNECT_DELAY) := by
    unfold onSocketClose
    rw [hupd]
    simp only [hp]
  have hgwAfter : getA (onSocketClose st id code now).1.gateways id =
      some (gwDisconnected gw) := by
    rw [hres]
    exact getA_setA_self _ _ _
  have hpendAfter : getA (onSocketClose st id code now).1.pending id = some [] := by
    rw [hres]
    exact getA_setA_self _ _ _
  refine ⟨by rw [hgwAfter]; simp [gwDisconnected], hpendAfter, by rw [hres],
          by rw [hres]; clear hres hupd hgwAfter hpendAfter hp; induction reqs <;> simp_all,
          by rw [hres], rfl, ?_, ?_, ?_⟩
  · intro msg
    unfold handleResponse
    cases hg2 : getA (onSocketClose st id code now).1.gateways id with
    | none => rfl
    | some gw2 =>
      rw [hpendAfter]
      simp
  · unfold reconnectFire
    simp [hasA, hgwAfter]
  · intro st2 h2
    unfold reconnectFire
    simp [h2]

/-- Witness for C7: concrete state with a registered gateway and two pending
requests; the close handler rejects both, clears the table and schedules the
5 s reconnect. -/
def c7WitnessGateway : Gateway :=
  { id := "g1", url := "http://h", name := "h", token := none,
    autoDiscovered := false, status := "online", lastSeen := none,
    lastError := none, agents := [], createdAt := "t0",
    hcSuccess := 0, hcFailure := 0, serverInfo := none }

def c7WitnessState : ManagerState :=
  { emptyState with
    gateways := [("g1", c7WitnessGateway)]
    pending := [("g1", ["a", "b"])] }

theorem c7_socket_close_spec_witness :
    (getA (onSocketClose c7WitnessState "g1" 1006 "t1").1.gateways "g1").map Gateway.status =
      some "disconnected" ∧
    getA (onSocketClose c7WitnessState "g1" 1006 "t1").1.pending "g1" = some [] ∧
    (onSocketClose c7WitnessState "g1" 1006 "t1").2.2.1 =
      ["a", "b"].map (fun q => (q, Settle.rejected ("Connection closed: " ++ toString 1006))) ∧
    ((onSocketClose c7WitnessState "g1" 1006 "t1").2.2.1.map Prod.fst = ["a", "b"]) ∧
    (onSocketClose c7WitnessState "g1" 1006 "t1").2.2.2 = RECONNECT_DELAY ∧
    RECONNECT_DELAY = 5000 ∧
    handleResponse (onSocketClose c7WitnessState "g1" 1006 "t1").1 "g1"
        { id := "a", ok := true } =
      ((onSocketClose c7WitnessState "g1" 1006 "t1").1, none) ∧
    (reconnectFire (onSocketClose c7WitnessState "g1" 1006 "t1").1 "g1").1 = true ∧
    (reconnectFire emptyState "g1").1 = false :=
  let h := c7_socket_close_spec c7WitnessState "g1" c7WitnessGateway 1006 "t1" ["a", "b"]
    (by decide) (by decide)
  ⟨h.1, h.2.1, h.2.2.1, h.2.2.2.1, h.2.2.2.2.1, h.2.2.2.2.2.1,
   h.2.2.2.2.2.2.1 { id := "a", ok := true }, h.2.2.2.2.2.2.2.1,
   h.2.2.2.2.2.2.2.2 emptyState (by decide)⟩

/-! ## Claim C1 — returned gateway records: token stripped, hasToken set -/

/-- First registration: url "h" with a stored bearer token. -/
def c1FirstAdd : GatewayRecord × ManagerState × List Event :=
  addGateway emptyState { url := "h", token := some "secret" } "gw1" "t0"

/-- Second registration of the same url: the duplicate-url branch of
`addGateway`. -/
def c1Collision : GatewayRecord × ManagerState × List Event :=
  addGateway c1FirstAdd.2.1 { url := "h" } "gw2" "t1"

/-- C1 (code bug): the claim says every record returned by `addGateway` —
including the one returned when the normalized url collides with an existing
gateway — carries no `token` field and carries `hasToken`.  The collision
branch (`return gw;`) instead returns the stored gateway object raw: at this
input the returned record exposes the stored bearer token and has no
`hasToken` field, while the non-collision return and the `getGateways`
snapshots are sanitized as claimed. -/
theorem c1_collision_returns_raw_token_record :
    c1Collision.1.token = some (some "secret") ∧
    c1Collision.1.hasToken = none ∧
    c1Collision.1.id = "gw1" ∧
    c1FirstAdd.1.token = none ∧
    c1FirstAdd.1.hasToken = some true ∧
    (getGateways c1FirstAdd.2.1).map GatewayRecord.token = [none] ∧
    (getGateways c1FirstAdd.2.1).map GatewayRecord.hasToken = [some true] := by
  decide

/-! ## Claim C2 — url normalization and dedup by normalized url -/

/-- First registration of the bare host "host". -/
def c2FirstAdd : GatewayRecord × ManagerState × List Event :=
  addGateway emptyState { url := "host" } "gw1" "t0"

/-- Re-registration with the scheme re-cased (`HTTP://host`). -/
def c2Recased : GatewayRecord × ManagerState × List Event :=
  addGateway c2FirstAdd.2.1 { url := "HTTP://host" } "gw2" "t1"

/-- C2 counterexample: the claim says re-adding any url that normalizes to
the same effective url — regardless of trailing slash or re-cased scheme —
returns the existing gateway record.  The `startsWith("http")` check of
`_normalizeUrl` is case-sensitive, so `HTTP://host` is re-prefixed to the
distinct url `http://HTTP://host` and a second gateway with a fresh id is
allocated instead of returning the existing record. -/
theorem c2_counterexample_recased_scheme_new_id :
    normalizeUrl "host" = "http://host" ∧
    normalizeUrl "HTTP://host" = "http://HTTP://host" ∧
    c2Recased.1.id = "gw2" ∧
    ¬ c2Recased.1.id = c2FirstAdd.1.id ∧
    (getGateways c2Recased.2.1).length = 2 := by
  decide

/-- C2 (amended): a url with no scheme is stored trimmed, prefixed with
`http://` and with one trailing slash stripped; re-adding any url whose
normalization (under the code's case-sensitive check) equals the url of an
already-registered gateway returns that existing gateway record unchanged —
trailing-slash variants dedupe this way, but a re-cased scheme is re-prefixed
into a distinct url and allocates a new id (see the counterexample). -/
theorem c2_normalization_and_dedup
    (st : ManagerState) (args : AddGatewayArgs) (gw : Gateway) (freshId now : String)
    (hdup : findGatewayByUrl st (normalizeUrl args.url) = some gw) :
    addGateway st args freshId now = (rawGatewayRecord gw, st, []) ∧
    (∀ u : String, ¬ jsStartsWith (jsTrim u) "http" = true →
      ¬ jsStartsWith (jsTrim u) "ws" = true →
      normalizeUrl u = stripTrailingSlash ("http://" ++ jsTrim u)) ∧
    normalizeUrl "host" = "http://host" ∧
    normalizeUrl "host/" = "http://host" ∧
    normalizeUrl "http://host/" = "http://host" := by
  refine ⟨?_, ?_, by decide, by decide, by decide⟩
  · simp [addGateway, hdup]
  · intro u h1 h2
    simp [normalizeUrl, h1, h2]

/-- The gateway stored by the first registration of "host". -/
def c2WitnessGateway : Gateway :=
  { id := "gw1", url := "http://host", name := "host", token := none,
    autoDiscovered := false, status := "connecting", lastSeen := none,
    lastError := none, agents := [], createdAt := "t0",
    hcSuccess := 0, hcFailure := 0, serverInfo := none }

theorem c2_normalization_and_dedup_witness :
    addGateway c2FirstAdd.2.1 { url := "host/" } "gw9" "t9" =
      (rawGatewayRecord c2WitnessGateway, c2FirstAdd.2.1, []) ∧
    (∀ u : String, ¬ jsStartsWith (jsTrim u) "http" = true →
      ¬ jsStartsWith (jsTrim u) "ws" = true →
      normalizeUrl u = stripTrailingSlash ("http://" ++ jsTrim u)) ∧
    normalizeUrl "host" = "http://host" ∧
    normalizeUrl "host/" = "http://host" ∧
    normalizeUrl "http://host/" = "http://host" :=
  c2_normalization_and_dedup c2FirstAdd.2.1 { url := "host/" } c2WitnessGateway
    "gw9" "t9" (by decide)

/-! ## Claim C3 — health-check tick with ping failure and HTTP fallback -/

/-- Registered gateway used by the C3 counterexample. -/
def c3State : ManagerState :=
  (addGateway emptyState { url := "h" } "g" "t0").2.1

/-- The tick where `ping` fails and the HTTP probe answers 500. -/
def c3Probe : ManagerState × List Event × Bool :=
  healthTick c3State "g" PingOutcome.failure (HttpOutcome.response 500) "t1"

/-- C3 counterexample: the claim says an HTTP failure sets status `offline`.
A non-2xx HTTP response (here 500) sets status "error" (with lastError
"HTTP 500"), not "offline"; only a thrown exception produces "offline". -/
theorem c3_counterexample_non2xx_sets_error_not_offline :
    (getA c3Probe.1.gateways "g").map Gateway.status = some "error" ∧
    ¬ (getA c3Probe.1.gateways "g").map Gateway.status = some "offline" ∧
    (getA c3Probe.1.gateways "g").map Gateway.lastError = some (some ("HTTP " ++ toString 500)) ∧
    (getA c3Probe.1.gateways "g").map Gateway.hcFailure = some 1 := by
  decide

/-- Generic shape of `_updateGatewayStatus` on a registered gateway. -/
def gwWithStatus (gw : Gateway) (status : String) (err : Option String) (now : String) :
    Gateway :=
  { gw with
    status := status
    lastSeen := if status = "online" then some now else gw.lastSeen
    lastError := err }

theorem updateGatewayStatus_eq (st : ManagerState) (id : String) (gw : Gateway)
    (s : String) (e : Option String) (now : String)
    (hgw : getA st.gateways id = some gw) :
    updateGatewayStatus st id s e now =
      ({ st with gateways := setA st.gateways id (gwWithStatus gw s e now) },
       [Event.gatewayUpdate (sanitizeGateway (gwWithStatus gw s e now))]) := by
  simp [updateGatewayStatus, gwWithStatus, hgw]

/-- `healthChecks.success++` on a gateway record. -/
def gwBumpS (g : Gateway) : Gateway :=
  { g with hcSuccess := g.hcSuccess + 1 }

/-- `healthChecks.failure++` on a gateway record. -/
def gwBumpF (g : Gateway) : Gateway :=
  { g with hcFailure := g.hcFailure + 1 }

theorem bumpSuccess_eq (st : ManagerState) (id : String) (gw : Gateway)
    (hgw : getA st.gateways id = some gw) :
    bumpSuccess st id = { st with gateways := setA st.gateways id (gwBumpS gw) } := by
  simp [bumpSuccess, gwBumpS, hgw]

theorem bumpFailure_eq (st : ManagerState) (id : String) (gw : Gateway)
    (hgw : getA st.gateways id = some gw) :
    bumpFailure st id = { st with gateways := setA st.gateways id (gwBumpF gw) } := by
  simp [bumpFailure, gwBumpF, hgw]

theorem connectToGateway_gateways (s : ManagerState) (i : String) :
    (connectToGateway s i).gateways = s.gateways := by
  unfold connectToGateway disconnectGateway
  cases getA s.gateways i with
  | none => rfl
  | some g =>
    simp only
    cases getA (delA s.pending i) i <;> cases getA s.pending i <;> rfl

/-- The manager state after the online path of the HTTP fallback (status set
to online, success counter bumped). -/
def httpOkState (st : ManagerState) (id : String) (gw : Gateway) (now : String) :
    ManagerState :=
  let gA := gwWithStatus gw "online" none now
  { st with gateways := setA (setA st.gateways id gA) id (gwBumpS gA) }

/-- The manager state after the non-2xx path of the HTTP fallback. -/
def httpErrState (st : ManagerState) (id : String) (gw : Gateway) (status : Nat)
    (now : String) : ManagerState :=
  let gE := gwWithStatus gw "error" (some ("HTTP " ++ toString status)) now
  { st with gateways := setA (setA st.gateways id gE) id (gwBumpF gE) }

/-- The manager state after the exception path of the HTTP fallback. -/
def httpOffState (st : ManagerState) (id : String) (gw : Gateway) (msg : String)
    (now : String) : ManagerState :=
  let gO := gwWithStatus gw "offline" (some msg) now
  { st with gateways := setA (setA st.gateways id gO) id (gwBumpF gO) }

theorem httpHealthCheck_ok_eq (st : ManagerState) (id : String) (gw : Gateway)
    (now : String) (status : Nat) (hgw : getA st.gateways id = some gw)
    (hok : responseOk status = true) :
    httpHealthCheck st id (HttpOutcome.response status) now =
      (if isOpenSocket st id then httpOkState st id gw now
       else connectToGateway (httpOkState st id gw now) id,
       [Event.gatewayUpdate (sanitizeGateway (gwWithStatus gw "online" none now))],
       ! isOpenSocket st id) := by
  have hget1 : getA (setA st.gateways id (gwWithStatus gw "online" none now)) id =
      some (gwWithStatus gw "online" none now) := getA_setA_self _ _ _
  unfold httpHealthCheck
  rw [hgw]
  simp only [hok, if_true]
  rw [updateGatewayStatus_eq st id gw "online" none now hgw]
  simp only
  rw [bumpSuccess_eq _ id (gwWithStatus gw "online" none now) hget1]
  have hconn : isOpenSocket (httpOkState st id gw now) id = isOpenSocket st id := rfl
  rw [show ({ st with gateways := setA (setA st.gateways id (gwWithStatus gw "online" none now)) id (gwBumpS (gwWithStatus gw "online" none now)) } : ManagerState) = httpOkState st id gw now from rfl]
  rw [hconn]
  cases hop : isOpenSocket st id <;> simp

theorem httpHealthCheck_bad_eq (st : ManagerState) (id : String) (gw : Gateway)
    (now : String) (status : Nat) (hgw : getA st.gateways id = some gw)
    (hbad : responseOk status = false) :
    httpHealthCheck st id (HttpOutcome.response status) now =
      (httpErrState st id gw status now,
       [Event.gatewayUpdate (sanitizeGateway
          (gwWithStatus gw "error" (some ("HTTP " ++ toString status)) now))],
       false) := by
  have hget1 : getA (setA st.gateways id
      (gwWithStatus gw "error" (some ("HTTP " ++ toString status)) now)) id =
      some (gwWithStatus gw "error" (some ("HTTP " ++ toString status)) now) :=
    getA_setA_self _ _ _
  unfold httpHealthCheck
  rw [hgw]
  simp only [hbad, Bool.false_eq_true, if_false]
  rw [updateGatewayStatus_eq st id gw "error" (some ("HTTP " ++ toString status)) now hgw]
  simp only
  rw [bumpFailure_eq _ id (gwWithStatus gw "error" (some ("HTTP " ++ toString status)) now) hget1]
  rfl

theorem httpHealthCheck_exception_eq (st : ManagerState) (id : String) (gw : Gateway)
    (now : String) (msg : String) (hgw : getA st.gateways id = some gw) :
    httpHealthCheck st id (HttpOutcome.exception msg) now =
      (httpOffState st id gw msg now,
       [Event.gatewayUpdate (sanitizeGateway (gwWithStatus gw "offline" (some msg) now))],
       false) := by
  have hget1 : getA (setA st.gateways id (gwWithStatus gw "offline" (some msg) now)) id =
      some (gwWithStatus gw "offline" (some msg) now) := getA_setA_self _ _ _
  unfold httpHealthCheck
  rw [hgw]
  simp only
  rw [updateGatewayStatus_eq st id gw "offline" (some msg) now hgw]
  simp only
  rw [bumpFailure_eq _ id (gwWithStatus gw "offline" (some msg) now) hget1]
  rfl

/-- C3 (amended): on a tick whose `ping` fails, the HTTP fallback behaves as
follows on a registered gateway — a 2xx response sets status `online`,
increments the success counter, and initiates a fresh connection exactly when
no currently-open socket exists; a non-2xx response sets status `error`
(recording "HTTP {status}") and increments the failure counter; an exception
sets status `offline` (recording the message) and increments the failure
counter; neither failure path initiates a connection. -/
theorem c3_health_fallback_spec (st : ManagerState) (id : String) (gw : Gateway)
    (now : String) (hgw : getA st.gateways id = some gw) :
    (∀ status : Nat, responseOk status = true →
      (getA (healthTick st id PingOutcome.failure (HttpOutcome.response status) now).1.gateways id).map
          Gateway.status = some "online" ∧
      (getA (healthTick st id PingOutcome.failure (HttpOutcome.response status) now).1.gateways id).map
          Gateway.hcSuccess = some (gw.hcSuccess + 1) ∧
      (healthTick st id PingOutcome.failure (HttpOutcome.response status) now).2.2 =
        ! isOpenSocket st id) ∧
    (∀ status : Nat, responseOk status = false →
      (getA (healthTick st id PingOutcome.failure (HttpOutcome.response status) now).1.gateways id).map
          Gateway.status = some "error" ∧
      (getA (healthTick st id PingOutcome.failure (HttpOutcome.response status) now).1.gateways id).map
          Gateway.lastError = some (some ("HTTP " ++ toString status)) ∧
      (getA (healthTick st id PingOutcome.failure (HttpOutcome.response status) now).1.gateways id).map
          Gateway.hcFailure = some (gw.hcFailure + 1) ∧
      (healthTick st id PingOutcome.failure (HttpOutcome.response status) now).2.2 = false) ∧
    (∀ msg : String,
      (getA (healthTick st id PingOutcome.failure (HttpOutcome.exception msg) now).1.gateways id).map
          Gateway.status = some "offline" ∧
      (getA (healthTick st id PingOutcome.failure (HttpOutcome.exception msg) now).1.gateways id).map
          Gateway.lastError = some (some msg) ∧
      (getA (healthTick st id PingOutcome.failure (HttpOutcome.exception msg) now).1.gateways id).map
          Gateway.hcFailure = some (gw.hcFailure + 1) ∧
      (healthTick st id PingOutcome.failure (HttpOutcome.exception msg) now).2.2 = false) := by
  have htick : ∀ o : HttpOutcome,
      healthTick st id PingOutcome.failure o now = httpHealthCheck st id o now := by
    intro o
    simp [healthTick, hgw]
  refine ⟨?_, ?_, ?_⟩
  · intro status hok
    rw [htick, httpHealthCheck_ok_eq st id gw now status hgw hok]
    have hgetB : getA (httpOkState st id gw now).gateways id =
        some (gwBumpS (gwWithStatus gw "online" none now)) := by
      simp only [httpOkState]
      exact getA_setA_self _ _ _
    refine ⟨?_, ?_, rfl⟩
    · cases hop : isOpenSocket st id
      · simp only [Bool.false_eq_true, if_false, connectToGateway_gateways, hgetB]
        simp [gwBumpS, gwWithStatus]
      · simp only [if_true, hgetB]
        simp [gwBumpS, gwWithStatus]
    · cases hop : isOpenSocket st id
      · simp only [Bool.false_eq_true, if_false, connectToGateway_gateways, hgetB]
        simp [gwBumpS, gwWithStatus]
      · simp only [if_true, hgetB]
        simp [gwBumpS, gwWithStatus]
  · intro status hbad
    rw [htick, httpHealthCheck_bad_eq st id gw now status hgw hbad]
    refine ⟨?_, ?_, ?_, rfl⟩ <;>
      simp [httpErrState, getA_setA_self, gwBumpF, gwWithStatus]
  · intro msg
    rw [htick, httpHealthCheck_exception_eq st id gw now msg hgw]
    refine ⟨?_, ?_, ?_, rfl⟩ <;>
      simp [httpOffState, getA_setA_self, gwBumpF, gwWithStatus]

/-- The gateway stored by the C3 counterexample setup. -/
def c3WitnessGateway : Gateway :=
  { id := "g", url := "http://h", name := "h", token := none,
    autoDiscovered := false, status := "connecting", lastSeen := none,
    lastError := none, agents := [], createdAt := "t0",
    hcSuccess := 0, hcFailure := 0, serverInfo := none }

theorem c3_health_fallback_spec_witness :
    (getA (healthTick c3State "g" PingOutcome.failure (HttpOutcome.response 200) "t1").1.gateways "g").map
        Gateway.status = some "online" ∧
    (getA (healthTick c3State "g" PingOutcome.failure (HttpOutcome.response 200) "t1").1.gateways "g").map
        Gateway.hcSuccess = some (c3WitnessGateway.hcSuccess + 1) ∧
    (healthTick c3State "g" PingOutcome.failure (HttpOutcome.response 200) "t1").2.2 =
      ! isOpenSocket c3State "g" :=
  (c3_health_fallback_spec c3State "g" c3WitnessGateway "t1" (by decide)).1 200 (by decide)

/-! ## Claims C5 and C10 — incremental reconciliation (`_updateSession`) -/

/-- The mutated existing entity of `_updateSession` after upserting the new
session record `ns` and recomputing the aggregates (named form of the record
update in the `existingAgent` branch). -/
def updatedAgentOf (ag : Agent) (sess : List SessionRecord) (ns : SessionRecord) : Agent :=
  let found := sess.any (fun r => r.sessionKey = ns.sessionKey)
  let sess2 := upsertSessionRec ns sess
  { ag with
    sessions := some sess2
    sessionCount := if found then ag.sessionCount else some sess2.length
    totalMessages := some (sess2.map (fun r => r.messageCount)).sum
    status := if sess2.any (fun r => r.status = "active") then "active" else "idle"
    lastActive :=
      match maxTruthy sess2 with
      | some m => some m
      | none => ag.lastActive }

/-- The fresh entity created by `_updateSession` when no agent exists at the
composite id (named form of the object literal in the `else` branch). -/
def freshAgentOf (gatewayId agentId : String) (ns : SessionRecord) : Agent :=
  { id := gatewayId ++ ":" ++ agentId
    gatewayId := gatewayId
    agentId := agentId
    name := agentId
    status := if ns.status = "active" then "active" else "idle"
    sessionCount := some 1
    sessions := some [ns]
    lastActive := ns.lastActive
    totalMessages := some ns.messageCount
    avatar := some (getAgentAvatar (some agentId) none) }

/-- The state produced by the fresh-agent branch of `_updateSession`
(including the `gateway.agents.push` bookkeeping). -/
def updSessionFreshState (gatewayId agentId : String) (sd : SessionPayload)
    (st : ManagerState) : ManagerState :=
  let ns := buildSessionRecord sd
  let ag := freshAgentOf gatewayId agentId ns
  let st1 := { st with agents := setA st.agents (gatewayId ++ ":" ++ agentId) ag }
  match getA st1.gateways gatewayId with
  | some gw =>
    if gw.agents.contains (gatewayId ++ ":" ++ agentId) then st1
    else
      let gw2 := { gw with agents := gw.agents ++ [gatewayId ++ ":" ++ agentId] }
      { st1 with gateways := setA st1.gateways gatewayId gw2 }
  | none => st1

/-- The state produced by the existing-agent branch of `_updateSession`. -/
def updSessionExistState (gatewayId agentId : String) (sd : SessionPayload)
    (st : ManagerState) (ag0 : Agent) (sess : List SessionRecord) : ManagerState :=
  let ag2 := updatedAgentOf ag0 sess (buildSessionRecord sd)
  { st with agents := setA st.agents (gatewayId ++ ":" ++ agentId) ag2 }

theorem updateSession_eq_existing (gatewayId : String) (sd : SessionPayload)
    (st : ManagerState) (agentId : String) (ag0 : Agent) (sess : List SessionRecord)
    (haid : truthy (extractAgentId sd) = some agentId)
    (hex : getA st.agents (gatewayId ++ ":" ++ agentId) = some ag0)
    (hsess : ag0.sessions = some sess) :
    updateSession gatewayId sd st =
      some (updSessionExistState gatewayId agentId sd st ag0 sess,
            [Event.agentUpdate (updatedAgentOf ag0 sess (buildSessionRecord sd))]) := by
  unfold updateSession updSessionExistState updatedAgentOf
  rw [haid]
  dsimp only
  rw [hex]
  dsimp only
  rw [hsess]

theorem updateSession_eq_fresh (gatewayId : String) (sd : SessionPayload)
    (st : ManagerState) (agentId : String)
    (haid : truthy (extractAgentId sd) = some agentId)
    (hex : getA st.agents (gatewayId ++ ":" ++ agentId) = none) :
    updateSession gatewayId sd st =
      some (updSessionFreshState gatewayId agentId sd st,
            [Event.agentUpdate (freshAgentOf gatewayId agentId (buildSessionRecord sd))]) := by
  unfold updateSession updSessionFreshState freshAgentOf
  rw [haid]
  dsimp only
  rw [hex]

theorem updSessionFreshState_agents (gatewayId agentId : String) (sd : SessionPayload)
    (st : ManagerState) :
    (updSessionFreshState gatewayId agentId sd st).agents =
      setA st.agents (gatewayId ++ ":" ++ agentId)
        (freshAgentOf gatewayId agentId (buildSessionRecord sd)) := by
  unfold updSessionFreshState
  dsimp only
  cases hgw : getA st.gateways gatewayId with
  | none => rfl
  | some gw =>
    dsimp only
    by_cases hc : gw.agents.contains (gatewayId ++ ":" ++ agentId) = true
    · rw [if_pos hc]
    · rw [if_neg hc]

/-- Specification of a successful `_updateSession` call: under the composite
key `{gatewayId}:{agentId}` the result holds an agent entity that was emitted
in exactly one `agent:update`, whose sessions list contains the upserted
record built from the payload, whose `totalTokens` is exactly what it was
before the call (no token aggregate is computed on this path), whose status
is active iff some session record is active, whose `totalMessages` is the sum
of the records' message counts, and whose `lastActive` is the greatest truthy
session timestamp whenever one exists. -/
theorem updateSession_run_spec (gatewayId : String) (sd : SessionPayload)
    (st st' : ManagerState) (evs : List Event) (agentId : String)
    (hrun : updateSession gatewayId sd st = some (st', evs))
    (haid : truthy (extractAgentId sd) = some agentId) :
    ∃ ag l,
      getA st'.agents (gatewayId ++ ":" ++ agentId) = some ag ∧
      evs = [Event.agentUpdate ag] ∧
      ag.sessions = some l ∧
      buildSessionRecord sd ∈ l ∧
      ag.totalTokens = (getA st.agents (gatewayId ++ ":" ++ agentId)).bind Agent.totalTokens ∧
      (ag.status = "active" ↔ ∃ r ∈ l, r.status = "active") ∧
      ag.totalMessages = some (l.map (fun r => r.messageCount)).sum ∧
      (¬ l.filterMap (fun r => truthy r.lastActive) = [] →
        ∃ m, ag.lastActive = some m ∧
          m ∈ l.filterMap (fun r => truthy r.lastActive) ∧
          ∀ t ∈ l.filterMap (fun r => truthy r.lastActive), strLe t m = true) := by
  cases hex : getA st.agents (gatewayId ++ ":" ++ agentId) with
  | some ag0 =>
    cases hsess : ag0.sessions with
    | none =>
      unfold updateSession at hrun
      rw [haid] at hrun
      dsimp only at hrun
      rw [hex] at hrun
      dsimp only at hrun
      rw [hsess] at hrun
      simp at hrun
    | some sess =>
      rw [updateSession_eq_existing gatewayId sd st agentId ag0 sess haid hex hsess] at hrun
      simp only [Option.some.injEq, Prod.mk.injEq] at hrun
      obtain ⟨hst, hevs⟩ := hrun
      refine ⟨updatedAgentOf ag0 sess (buildSessionRecord sd),
              upsertSessionRec (buildSessionRecord sd) sess, ?_, hevs.symm, rfl,
              mem_upsertSessionRec _ _, by simp [updatedAgentOf], ?_, rfl, ?_⟩
      · rw [← hst]
        simp only [updSessionExistState]
        exact getA_setA_self _ _ _
      · constructor
        · intro hact
          by_cases hany : (upsertSessionRec (buildSessionRecord sd) sess).any
              (fun r => r.status = "active") = true
          · simpa using hany
          · exfalso
            simp only [updatedAgentOf, hany, Bool.false_eq_true, if_false] at hact
            exact absurd hact (by decide)
        · intro hex2
          have hany : (upsertSessionRec (buildSessionRecord sd) sess).any
              (fun r => r.status = "active") = true := by
            simpa using hex2
          simp [updatedAgentOf, hany]
      · intro hne
        have hsome : ∃ m, maxTruthy (upsertSessionRec (buildSessionRecord sd) sess) = some m := by
          cases hmx : maxTruthy (upsertSessionRec (buildSessionRecord sd) sess) with
          | none =>
            exact absurd ((listMaxStr_eq_none_iff _).mp hmx) hne
          | some m => exact ⟨m, rfl⟩
        obtain ⟨m, hm⟩ := hsome
        refine ⟨m, ?_, listMaxStr_mem hm, listMaxStr_ge hm⟩
        simp [updatedAgentOf, hm]
  | none =>
    rw [updateSession_eq_fresh gatewayId sd st agentId haid hex] at hrun
    simp only [Option.some.injEq, Prod.mk.injEq] at hrun
    obtain ⟨hst, hevs⟩ := hrun
    refine ⟨freshAgentOf gatewayId agentId (buildSessionRecord sd),
            [buildSessionRecord sd], ?_, hevs.symm, rfl, by simp, by simp [freshAgentOf],
            ?_, by simp [freshAgentOf], ?_⟩
    · rw [← hst, updSessionFreshState_agents]
      exact getA_setA_self _ _ _
    · constructor
      · intro hact
        by_cases hs : (buildSessionRecord sd).status = "active"
        · exact ⟨buildSessionRecord sd, by simp, hs⟩
        · exfalso
          simp only [freshAgentOf, hs, if_false] at hact
          exact absurd hact (by decide)
      · intro hex2
        obtain ⟨r, hr, hrs⟩ := hex2
        simp only [List.mem_singleton] at hr
        subst hr
        simp [freshAgentOf, hrs]
    · intro hne
      cases htr : truthy (buildSessionRecord sd).lastActive with
      | none =>
        exfalso
        apply hne
        simp [List.filterMap_cons, htr]
      | some t =>
        refine ⟨t, ?_, ?_, ?_⟩
        · simp only [freshAgentOf]
          exact truthy_eq_some htr
        · simp [List.filterMap_cons, htr]
        · intro u hu
          have hu' : u = t := by
            simpa [List.filterMap_cons, htr] using hu
          rw [hu']
          exact strLe_refl t

/-- Payload used by the C5 counterexample: it carries `totalTokens: 7`. -/
def c5CexPayload : SessionPayload :=
  { sessionKey := some "agent:main:telegram", totalTokens := some 7,
    active := true, messageCount := some 3 }

/-- The entity stored at `g:main` after processing the counterexample
payload from an empty state. -/
def c5CexAgent : Option Agent :=
  (updateSession "g" c5CexPayload emptyState).bind (fun r => getA r.1.agents "g:main")

/-- C5 counterexample: the claim asserts that after an incremental update the
entity's aggregate token count equals the sum of token counts over its
sessions.  At this input the single session's payload carries 7 tokens, the
update completes and stores the entity — but the entity has NO `totalTokens`
field at all (`_updateSession` never computes a token aggregate), so no
aggregate token count equals the sum 7. -/
theorem c5_counterexample_no_token_aggregate :
    c5CexPayload.totalTokens = some 7 ∧
    (updateSession "g" c5CexPayload emptyState).isSome = true ∧
    c5CexAgent.isSome = true ∧
    c5CexAgent.bind Agent.totalTokens = none ∧
    ¬ c5CexAgent.bind Agent.totalTokens = some 7 := by
  decide

/-- C5 (amended): every incremental `session:update`/`session:created` whose
payload yields a parseable agentId and which completes emits exactly one
`agent:update`; afterwards the entity keyed `{gatewayId}:{agentId}` holds the
upserted session record, its status is `active` iff at least one session
record is active, its `totalMessages` is the sum of the records' message
counts, and its `lastActive` is the greatest truthy session timestamp
whenever one exists — but no token aggregate is maintained on this path: the
entity's `totalTokens` is exactly what it was before the call (absent for
entities created incrementally). -/
theorem c5_incremental_update_aggregates (gatewayId : String) (sd : SessionPayload)
    (st st' : ManagerState) (evs : List Event) (agentId : String)
    (hrun : updateSession gatewayId sd st = some (st', evs))
    (haid : truthy (extractAgentId sd) = some agentId) :
    ∃ ag l,
      getA st'.agents (gatewayId ++ ":" ++ agentId) = some ag ∧
      evs = [Event.agentUpdate ag] ∧
      ag.sessions = some l ∧
      buildSessionRecord sd ∈ l ∧
      ag.totalTokens = (getA st.agents (gatewayId ++ ":" ++ agentId)).bind Agent.totalTokens ∧
      (ag.status = "active" ↔ ∃ r ∈ l, r.status = "active") ∧
      ag.totalMessages = some (l.map (fun r => r.messageCount)).sum ∧
      (¬ l.filterMap (fun r => truthy r.lastActive) = [] →
        ∃ m, ag.lastActive = some m ∧
          m ∈ l.filterMap (fun r => truthy r.lastActive) ∧
          ∀ t ∈ l.filterMap (fun r => truthy r.lastActive), strLe t m = true) :=
  updateSession_run_spec gatewayId sd st st' evs agentId hrun haid

/-- Payload for the C5 witness. -/
def c5wPayload : SessionPayload :=
  { sessionKey := some "agent:main:telegram", active := true,
    messageCount := some 3, lastActiveAt := some "2024-01-01T00:00:00Z" }

/-- Result state of the C5 witness run. -/
def c5wState : ManagerState :=
  ((updateSession "g" c5wPayload emptyState).getD (emptyState, [])).1

/-- Events of the C5 witness run. -/
def c5wEvents : List Event :=
  ((updateSession "g" c5wPayload emptyState).getD (emptyState, [])).2

theorem c5_incremental_update_aggregates_witness :
    ∃ ag l,
      getA c5wState.agents ("g" ++ ":" ++ "main") = some ag ∧
      c5wEvents = [Event.agentUpdate ag] ∧
      ag.sessions = some l ∧
      buildSessionRecord c5wPayload ∈ l ∧
      ag.totalTokens = (getA emptyState.agents ("g" ++ ":" ++ "main")).bind Agent.totalTokens ∧
      (ag.status = "active" ↔ ∃ r ∈ l, r.status = "active") ∧
      ag.totalMessages = some (l.map (fun r => r.messageCount)).sum ∧
      (¬ l.filterMap (fun r => truthy r.lastActive) = [] →
        ∃ m, ag.lastActive = some m ∧
          m ∈ l.filterMap (fun r => truthy r.lastActive) ∧
          ∀ t ∈ l.filterMap (fun r => truthy r.lastActive), strLe t m = true) :=
  c5_incremental_update_aggregates "g" c5wPayload emptyState c5wState c5wEvents "main"
    (by decide) (by decide)

/-- C10: a `session:deleted` event deletes only the entity keyed
`{gatewayId}:{sessionKey}`, while incremental updates store entities keyed
`{gatewayId}:{agentId}` — so when the session key differs from the extracted
agent id, processing the update and then the delete for that same session key
leaves the incremental agent entity (with its session record for that key)
present and unchanged. -/
theorem c10_session_deleted_preserves_incremental_entity
    (gatewayId : String) (sd : SessionPayload) (st st1 : ManagerState)
    (evs : List Event) (agentId sk : String)
    (hrun : updateSession gatewayId sd st = some (st1, evs))
    (haid : truthy (extractAgentId sd) = some agentId)
    (hkey : effKey sd = some sk)
    (hne : ¬ sk = agentId) :
    getA (handleSessionDeleted st1 gatewayId (some sk)).1.agents (gatewayId ++ ":" ++ agentId) =
      getA st1.agents (gatewayId ++ ":" ++ agentId) ∧
    (∃ ag l, getA st1.agents (gatewayId ++ ":" ++ agentId) = some ag ∧
      ag.sessions = some l ∧ ∃ r ∈ l, r.sessionKey = some sk) := by
  obtain ⟨ag, l, hget, _hevs, hsess, hmem, _⟩ :=
    updateSession_run_spec gatewayId sd st st1 evs agentId hrun haid
  constructor
  · unfold handleSessionDeleted
    cases htr : truthy (some sk) with
    | none => rfl
    | some sk2 =>
      have hsk2 : sk2 = sk := by
        have h2 := truthy_eq_some htr
        injection h2 with h3
        exact h3.symm
      subst hsk2
      dsimp only
      have hcid : ¬ (gatewayId ++ ":" ++ agentId) = (gatewayId ++ ":" ++ sk2) := by
        intro hcontra
        exact hne (string_append_right_cancel hcontra).symm
      by_cases hhas : hasA st1.agents (gatewayId ++ ":" ++ sk2) = true
      · simp only [hhas, if_true]
        exact getA_delA_ne _ _ _ hcid
      · simp only [Bool.not_eq_true] at hhas
        simp only [hhas, Bool.false_eq_true, if_false]
  · refine ⟨ag, l, hget, hsess, buildSessionRecord sd, hmem, ?_⟩
    show (buildSessionRecord sd).sessionKey = some sk
    simp only [buildSessionRecord]
    exact hkey

/-- Payload for the C10 witness: session key `agent:main:telegram`, extracted
agent id `main`. -/
def c10wPayload : SessionPayload :=
  { sessionKey := some "agent:main:telegram", active := true, messageCount := some 2 }

/-- State after the C10 witness update. -/
def c10wState : ManagerState :=
  ((updateSession "g" c10wPayload emptyState).getD (emptyState, [])).1

/-- Events of the C10 witness update. -/
def c10wEvents : List Event :=
  ((updateSession "g" c10wPayload emptyState).getD (emptyState, [])).2

theorem c10_session_deleted_preserves_incremental_entity_witness :
    getA (handleSessionDeleted c10wState "g" (some "agent:main:telegram")).1.agents
        ("g" ++ ":" ++ "main") =
      getA c10wState.agents ("g" ++ ":" ++ "main") ∧
    (∃ ag l, getA c10wState.agents ("g" ++ ":" ++ "main") = some ag ∧
      ag.sessions = some l ∧ ∃ r ∈ l, r.sessionKey = some "agent:main:telegram") :=
  c10_session_deleted_preserves_incremental_entity "g" c10wPayload emptyState
    c10wState c10wEvents "main" "agent:main:telegram"
    (by decide) (by decide) (by decide) (by decide)

/-! ## Claim C8 — removeGateway -/

/-- The state left by a successful `removeGateway`: timer gone, socket and
correlation map dropped, this gateway's agents and the gateway record
deleted. -/
def removedState (st : ManagerState) (id : String) : ManagerState :=
  { gateways := delA st.gateways id
    connections := delA st.connections id
    pending :=
      match getA st.pending id with
      | some _ => delA st.pending id
      | none => st.pending
    healthTimers := st.healthTimers.filter (fun t => ¬ t = id)
    agents := st.agents.filter (fun p => ¬ p.2.gatewayId = id) }

theorem removeGateway_eq (st : ManagerState) (id : String) (gw : Gateway)
    (hgw : getA st.gateways id = some gw) :
    removeGateway st id =
      (true, removedState st id,
       (st.agents.filter (fun p => p.2.gatewayId = id)).map (fun p => Event.agentRemoved p.1)
         ++ [Event.gatewayRemoved id],
       ((getA st.pending id).getD []).map (fun q => (q, Settle.rejected "Disconnected"))) := by
  unfold removeGateway stopHealthCheck disconnectGateway removedState
  rw [hgw]
  dsimp only
  cases hp : getA st.pending id with
  | some reqs => dsimp only; rfl
  | none => rfl

/-- C8: `removeGateway(id)` returns false and changes nothing when `id` is
unknown; otherwise it returns true, every remaining agent belongs to another
gateway, the gateway list omits `id` (under the map invariant that each
record's `id` field equals its key), one `agent:removed` event is emitted per
deleted entity followed by `gateway:removed`, every pending request of the
gateway is rejected with the disconnect error, and agents of other gateways
are untouched. -/
theorem c8_removeGateway_spec (st : ManagerState) (id : String) :
    (getA st.gateways id = none → removeGateway st id = (false, st, [], [])) ∧
    (∀ gw : Gateway, getA st.gateways id = some gw →
      (removeGateway st id).1 = true ∧
      (∀ a ∈ getAgents (removeGateway st id).2.1, ¬ a.gatewayId = id) ∧
      ((∀ p ∈ st.gateways, p.2.id = p.1) →
        ∀ rec ∈ getGateways (removeGateway st id).2.1, ¬ rec.id = id) ∧
      (removeGateway st id).2.2.1 =
        (st.agents.filter (fun p => p.2.gatewayId = id)).map (fun p => Event.agentRemoved p.1)
          ++ [Event.gatewayRemoved id] ∧
      (removeGateway st id).2.2.2 =
        ((getA st.pending id).getD []).map (fun q => (q, Settle.rejected "Disconnected")) ∧
      (∀ k a, getA st.agents k = some a → ¬ a.gatewayId = id →
        getA (removeGateway st id).2.1.agents k = some a)) := by
  constructor
  · intro h
    simp [removeGateway, h]
  · intro gw hgw
    rw [removeGateway_eq st id gw hgw]
    refine ⟨rfl, ?_, ?_, rfl, rfl, ?_⟩
    · intro a ha
      simp only [getAgents, removedState, List.mem_map] at ha
      obtain ⟨p, hp, hpa⟩ := ha
      have := (List.mem_filter.mp hp).2
      rw [hpa] at this
      simpa using this
    · intro hkeys rec hrec
      simp only [getGateways, removedState, List.mem_map] at hrec
      obtain ⟨p, hp, hpr⟩ := hrec
      have hmem := (List.mem_filter.mp hp).1
      have hkey := (List.mem_filter.mp hp).2
      have hid : rec.id = p.2.id := by rw [← hpr]; rfl
      rw [hid, hkeys p hmem]
      simpa using hkey
    · intro k a hk hna
      simp only [removedState]
      exact getA_filter_of_found _ hk (by simpa using hna)

/-- Concrete state for the C8 witness: gateway gw1 with one agent and one
pending request, plus a second gateway gwX with its own agent. -/
def c8wGateway : Gateway :=
  { id := "gw1", url := "http://h1", name := "h1", token := none,
    autoDiscovered := false, status := "online", lastSeen := none,
    lastError := none, agents := [], createdAt := "t0",
    hcSuccess := 0, hcFailure := 0, serverInfo := none }

def c8wAgentA : Agent :=
  { id := "gw1:a", gatewayId := "gw1", agentId := "a", name := "a", status := "idle" }

def c8wAgentB : Agent :=
  { id := "gwX:b", gatewayId := "gwX", agentId := "b", name := "b", status := "idle" }

def c8wState : ManagerState :=
  { gateways := [("gw1", c8wGateway), ("gwX", { c8wGateway with id := "gwX", url := "http://h2" })]
    connections := []
    pending := [("gw1", ["r9"])]
    healthTimers := ["gw1"]
    agents := [("gw1:a", c8wAgentA), ("gwX:b", c8wAgentB)] }

theorem c8_removeGateway_spec_witness :
    removeGateway emptyState "nope" = (false, emptyState, [], []) ∧
    (removeGateway c8wState "gw1").1 = true ∧
    (removeGateway c8wState "gw1").2.2.1 =
      (c8wState.agents.filter (fun p => p.2.gatewayId = "gw1")).map
          (fun p => Event.agentRemoved p.1)
        ++ [Event.gatewayRemoved "gw1"] ∧
    (removeGateway c8wState "gw1").2.2.2 =
      ((getA c8wState.pending "gw1").getD []).map
        (fun q => (q, Settle.rejected "Disconnected")) ∧
    getA (removeGateway c8wState "gw1").2.1.agents "gwX:b" = some c8wAgentB :=
  let h0 := c8_removeGateway_spec emptyState "nope"
  let h := (c8_removeGateway_spec c8wState "gw1").2 c8wGateway (by decide)
  ⟨h0.1 (by decide), h.1, h.2.2.2.1, h.2.2.2.2.1,
   h.2.2.2.2.2 "gwX:b" c8wAgentB (by decide) (by decide)⟩

/-! ## Claim C9 — full-list reconciliation is event-idempotent -/

/-- The composite ids contributed by a batch of session payloads (the
`seenIds` set of `_updateSessionsFromGateway`, in order). -/
def sessionCompositeIds (gatewayId : String) (sessions : List SessionPayload) :
    List String :=
  sessions.filterMap (fun s => (effKey s).map (fun k => gatewayId ++ ":" ++ k))

theorem contains_of_mem {a : String} {l : List String} (h : a ∈ l) :
    l.contains a = true := by
  induction l with
  | nil => simp at h
  | cons x rest ih =>
    rcases List.mem_cons.mp h with h | h
    · simp [List.contains_cons, h]
    · simp only [List.contains_cons, Bool.or_eq_true]
      exact Or.inr (ih h)

/-- The seen-ids component of the upsert loop is exactly the batch's
composite ids, independent of the agents map. -/
theorem updateSessionsLoop_seen (gatewayId : String) (sessions : List SessionPayload) :
    ∀ ags : List (String × Agent),
      (updateSessionsLoop gatewayId sessions ags).2.2 =
        sessionCompositeIds gatewayId sessions := by
  induction sessions with
  | nil => intro ags; rfl
  | cons s rest ih =>
    intro ags
    cases heff : effKey s with
    | none =>
      simp only [updateSessionsLoop, heff, sessionCompositeIds, List.filterMap_cons,
        Option.map_none']
      exact ih ags
    | some k =>
      simp only [updateSessionsLoop, heff, sessionCompositeIds, List.filterMap_cons,
        Option.map_some']
      rcases hrec : updateSessionsLoop gatewayId rest ags with ⟨ags1, evs1, seen1⟩
      rcases hrec2 : updateSessionsLoop gatewayId rest
          (setA ags (gatewayId ++ ":" ++ k) (buildListAgent gatewayId k s)) with
        ⟨ags2, evs2, seen2⟩
      have h1 : seen1 = sessionCompositeIds gatewayId rest := by
        have := ih ags
        rw [hrec] at this
        exact this
      have h2 : seen2 = sessionCompositeIds gatewayId rest := by
        have := ih (setA ags (gatewayId ++ ":" ++ k) (buildListAgent gatewayId k s))
        rw [hrec2] at this
        exact this
      by_cases hu : (match getA ags (gatewayId ++ ":" ++ k) with
          | some existing => existing == buildListAgent gatewayId k s
          | none => false) = true
      · simp only [hu, if_true, hrec]
        simpa [sessionCompositeIds] using h1
      · simp only [Bool.not_eq_true] at hu
        simp only [hu, Bool.false_eq_true, if_false, hrec2]
        simpa [sessionCompositeIds] using h2

/-- Keys outside the batch's composite ids are untouched by the upsert
loop. -/
theorem updateSessionsLoop_frame (gatewayId : String) (sessions : List SessionPayload) :
    ∀ ags : List (String × Agent), ∀ k : String,
      ¬ k ∈ sessionCompositeIds gatewayId sessions →
      getA (updateSessionsLoop gatewayId sessions ags).1 k = getA ags k := by
  induction sessions with
  | nil => intro ags k _; rfl
  | cons s rest ih =>
    intro ags k hk
    cases heff : effKey s with
    | none =>
      have hk' : ¬ k ∈ sessionCompositeIds gatewayId rest := by
        simpa [sessionCompositeIds, List.filterMap_cons, heff] using hk
      simp only [updateSessionsLoop, heff]
      exact ih ags k hk'
    | some key =>
      have hkcons : ¬ k = (gatewayId ++ ":" ++ key) ∧
          ¬ k ∈ sessionCompositeIds gatewayId rest := by
        have := hk
        simp only [sessionCompositeIds, List.filterMap_cons, heff, Option.map_some'] at this
        constructor
        · intro hc; exact this (by rw [hc]; exact List.mem_cons_self _ _)
        · intro hc; exact this (List.mem_cons_of_mem _ hc)
      simp only [updateSessionsLoop, heff]
      rcases hrec : updateSessionsLoop gatewayId rest ags with ⟨ags1, evs1, seen1⟩
      rcases hrec2 : updateSessionsLoop gatewayId rest
          (setA ags (gatewayId ++ ":" ++ key) (buildListAgent gatewayId key s)) with
        ⟨ags2, evs2, seen2⟩
      by_cases hu : (match getA ags (gatewayId ++ ":" ++ key) with
          | some existing => existing == buildListAgent gatewayId key s
          | none => false) = true
      · simp only [hu, if_true, hrec]
        have := ih ags k hkcons.2
        rw [hrec] at this
        exact this
      · simp only [Bool.not_eq_true] at hu
        simp only [hu, Bool.false_eq_true, if_false, hrec2]
        have := ih (setA ags (gatewayId ++ ":" ++ key) (buildListAgent gatewayId key s))
          k hkcons.2
        rw [hrec2] at this
        rw [this]
        exact getA_setA_ne _ _ _ _ hkcons.1

/-- After the upsert loop on a batch with pairwise-distinct composite ids,
every session of the batch is stored, structurally equal to the entity built
from it. -/
theorem updateSessionsLoop_stored (gatewayId : String) (sessions : List SessionPayload)
    (hnd : (sessionCompositeIds gatewayId sessions).Nodup) :
    ∀ ags : List (String × Agent), ∀ s ∈ sessions, ∀ key, effKey s = some key →
      getA (updateSessionsLoop gatewayId sessions ags).1 (gatewayId ++ ":" ++ key) =
        some (buildListAgent gatewayId key s) := by
  induction sessions with
  | nil => intro ags s hs; simp at hs
  | cons s0 rest ih =>
    intro ags s hs key hkey
    cases heff : effKey s0 with
    | none =>
      have hnd' : (sessionCompositeIds gatewayId rest).Nodup := by
        simpa [sessionCompositeIds, List.filterMap_cons, heff] using hnd
      rcases List.mem_cons.mp hs with hs0 | hsr
      · exfalso
        rw [hs0] at hkey
        rw [heff] at hkey
        exact Option.noConfusion hkey
      · simp only [updateSessionsLoop, heff]
        exact ih hnd' ags s hsr key hkey
    | some k0 =>
      have hcons : sessionCompositeIds gatewayId (s0 :: rest) =
          (gatewayId ++ ":" ++ k0) :: sessionCompositeIds gatewayId rest := by
        simp [sessionCompositeIds, List.filterMap_cons, heff]
      rw [hcons] at hnd
      have hnotin : ¬ (gatewayId ++ ":" ++ k0) ∈ sessionCompositeIds gatewayId rest :=
        (List.nodup_cons.mp hnd).1
      have hnd' : (sessionCompositeIds gatewayId rest).Nodup :=
        (List.nodup_cons.mp hnd).2
      simp only [updateSessionsLoop, heff]
      rcases List.mem_cons.mp hs with hs0 | hsr
      · subst hs0
        have hkk : key = k0 := by
          rw [heff] at hkey
          exact (Option.some.injEq _ _ ▸ hkey : k0 = key).symm
        subst hkk
        by_cases hu : (match getA ags (gatewayId ++ ":" ++ key) with
            | some existing => existing == buildListAgent gatewayId key s
            | none => false) = true
        · rcases hrec : updateSessionsLoop gatewayId rest ags with ⟨ags1, evs1, seen1⟩
          simp only [hu, if_true, hrec]
          have hframe := updateSessionsLoop_frame gatewayId rest ags
            (gatewayId ++ ":" ++ key) hnotin
          rw [hrec] at hframe
          rw [hframe]
          cases hget : getA ags (gatewayId ++ ":" ++ key) with
          | none => rw [hget] at hu; simp at hu
          | some existing =>
            rw [hget] at hu
            have : existing = buildListAgent gatewayId key s := by
              simpa using hu
            rw [this]
        · simp only [Bool.not_eq_true] at hu
          rcases hrec2 : updateSessionsLoop gatewayId rest
              (setA ags (gatewayId ++ ":" ++ key) (buildListAgent gatewayId key s)) with
            ⟨ags2, evs2, seen2⟩
          simp only [hu, Bool.false_eq_true, if_false, hrec2]
          have hframe := updateSessionsLoop_frame gatewayId rest
            (setA ags (gatewayId ++ ":" ++ key) (buildListAgent gatewayId key s))
            (gatewayId ++ ":" ++ key) hnotin
          rw [hrec2] at hframe
          rw [hframe]
          exact getA_setA_self _ _ _
      · by_cases hu : (match getA ags (gatewayId ++ ":" ++ k0) with
            | some existing => existing == buildListAgent gatewayId k0 s0
            | none => false) = true
        · rcases hrec : updateSessionsLoop gatewayId rest ags with ⟨ags1, evs1, seen1⟩
          simp only [hu, if_true, hrec]
          have := ih hnd' ags s hsr key hkey
          rw [hrec] at this
          exact this
        · simp only [Bool.not_eq_true] at hu
          rcases hrec2 : updateSessionsLoop gatewayId rest
              (setA ags (gatewayId ++ ":" ++ k0) (buildListAgent gatewayId k0 s0)) with
            ⟨ags2, evs2, seen2⟩
          simp only [hu, Bool.false_eq_true, if_false, hrec2]
          have := ih hnd'
            (setA ags (gatewayId ++ ":" ++ k0) (buildListAgent gatewayId k0 s0)) s hsr key hkey
          rw [hrec2] at this
          exact this

/-- When every session of the batch is already stored with the entity built
from it, the upsert loop is silent: it changes nothing and emits nothing. -/
theorem updateSessionsLoop_silent (gatewayId : String) (sessions : List SessionPayload) :
    ∀ ags : List (String × Agent),
      (∀ s ∈ sessions, ∀ key, effKey s = some key →
        getA ags (gatewayId ++ ":" ++ key) = some (buildListAgent gatewayId key s)) →
      updateSessionsLoop gatewayId sessions ags =
        (ags, [], sessionCompositeIds gatewayId sessions) := by
  induction sessions with
  | nil => intro ags _; rfl
  | cons s0 rest ih =>
    intro ags hstored
    cases heff : effKey s0 with
    | none =>
      simp only [updateSessionsLoop, heff]
      rw [ih ags (fun s hs key hkey => hstored s (List.mem_cons_of_mem _ hs) key hkey)]
      simp [sessionCompositeIds, List.filterMap_cons, heff]
    | some k0 =>
      have hget : getA ags (gatewayId ++ ":" ++ k0) = some (buildListAgent gatewayId k0 s0) :=
        hstored s0 (List.mem_cons_self _ _) k0 heff
      have hu : (match getA ags (gatewayId ++ ":" ++ k0) with
          | some existing => existing == buildListAgent gatewayId k0 s0
          | none => false) = true := by
        rw [hget]
        simp
      simp only [updateSessionsLoop, heff, hu, if_true]
      rw [ih ags (fun s hs key hkey => hstored s (List.mem_cons_of_mem _ hs) key hkey)]
      simp [sessionCompositeIds, List.filterMap_cons, heff]

/-- Filtering first by the complement of a predicate, then by the predicate,
leaves nothing. -/
theorem filter_not_then_filter_eq_nil {α : Type} (l : List α) (p : α → Bool) :
    (l.filter (fun x => ! p x)).filter p = [] := by
  induction l with
  | nil => rfl
  | cons x rest ih =>
    cases hx : p x <;> simp [List.filter_cons, hx, ih]

theorem filter_not_then_filter_eq_nil_prop {α : Type} (l : List α) (P : α → Prop)
    [DecidablePred P] :
    ((l.filter (fun x => decide (¬ P x))).filter (fun x => decide (P x))) = [] := by
  induction l with
  | nil => rfl
  | cons x rest ih =>
    by_cases hx : P x <;> simp [List.filter_cons, hx, ih]

/-- The state after one full-list reconciliation pass (upsert results
filtered by the removal sweep, seen ids recorded on the gateway). -/
def reconcileState (st : ManagerState) (gatewayId : String) (gw : Gateway)
    (ags1 : List (String × Agent)) (seen1 : List String) : ManagerState :=
  let ags2 := ags1.filter (fun p => ¬ (p.2.gatewayId = gatewayId ∧ ¬ seen1.contains p.1))
  let gw2 := { gw with agents := firstDedup seen1 }
  { st with agents := ags2, gateways := setA st.gateways gatewayId gw2 }

/-- C9 (amended): running full-list reconciliation twice with the same
`sessions.list` payload — provided the payload's sessions have pairwise
distinct effective composite ids — emits nothing at all on the second pass
(in particular zero `agent:update` events): each rebuilt entity is
structurally equal to the stored one and the removal sweep finds nothing.
With duplicate session keys in one payload this fails (see the
counterexample). -/
theorem c9_second_reconcile_pass_silent (st : ManagerState) (gatewayId : String)
    (sessions : List SessionPayload)
    (hnd : (sessionCompositeIds gatewayId sessions).Nodup) :
    (updateSessionsFromGateway
        (updateSessionsFromGateway st gatewayId sessions).1 gatewayId sessions).2 = [] := by
  cases hgw : getA st.gateways gatewayId with
  | none =>
    have h1 : updateSessionsFromGateway st gatewayId sessions = (st, []) := by
      unfold updateSessionsFromGateway
      rw [hgw]
    rw [h1]
    unfold updateSessionsFromGateway
    rw [hgw]
  | some gw =>
    rcases hloop : updateSessionsLoop gatewayId sessions st.agents with ⟨ags1, evs1, seen1⟩
    have hseen : seen1 = sessionCompositeIds gatewayId sessions := by
      have h := updateSessionsLoop_seen gatewayId sessions st.agents
      rw [hloop] at h
      exact h
    subst hseen
    have hpass1 : (updateSessionsFromGateway st gatewayId sessions).1 =
        reconcileState st gatewayId gw ags1 (sessionCompositeIds gatewayId sessions) := by
      unfold updateSessionsFromGateway reconcileState
      rw [hgw, hloop]
    rw [hpass1]
    have hgw2 : getA (reconcileState st gatewayId gw ags1
        (sessionCompositeIds gatewayId sessions)).gateways gatewayId =
        some { gw with agents := firstDedup (sessionCompositeIds gatewayId sessions) } := by
      simp only [reconcileState]
      exact getA_setA_self _ _ _
    have hstored2 : ∀ s ∈ sessions, ∀ key, effKey s = some key →
        getA (reconcileState st gatewayId gw ags1
          (sessionCompositeIds gatewayId sessions)).agents (gatewayId ++ ":" ++ key) =
          some (buildListAgent gatewayId key s) := by
      intro s hs key hkey
      have hmem : (gatewayId ++ ":" ++ key) ∈ sessionCompositeIds gatewayId sessions := by
        apply List.mem_filterMap.mpr
        exact ⟨s, hs, by rw [hkey]; rfl⟩
      have hcontains := contains_of_mem hmem
      have hstored := updateSessionsLoop_stored gatewayId sessions hnd st.agents s hs key hkey
      rw [hloop] at hstored
      simp only [reconcileState]
      rw [getA_filter_of_true]
      · exact hstored
      · intro v
        simp
        exact Or.inr hmem
    have hloop2 : updateSessionsLoop gatewayId sessions
        (reconcileState st gatewayId gw ags1 (sessionCompositeIds gatewayId sessions)).agents =
        ((reconcileState st gatewayId gw ags1 (sessionCompositeIds gatewayId sessions)).agents,
         [], sessionCompositeIds gatewayId sessions) :=
      updateSessionsLoop_silent gatewayId sessions _ hstored2
    unfold updateSessionsFromGateway
    rw [hgw2, hloop2]
    dsimp only
    have hremoved : ((reconcileState st gatewayId gw ags1
        (sessionCompositeIds gatewayId sessions)).agents.filter
          (fun p => p.2.gatewayId = gatewayId ∧
            ¬ (sessionCompositeIds gatewayId sessions).contains p.1)) = [] := by
      simp only [reconcileState]
      exact filter_not_then_filter_eq_nil_prop ags1
        (fun p => p.2.gatewayId = gatewayId ∧
          ¬ (sessionCompositeIds gatewayId sessions).contains p.1 = true)
    rw [hremoved]
    rfl

/-- Gateway for the C9 concrete runs. -/
def c9Gateway : Gateway :=
  { id := "g", url := "http://h", name := "h", token := none,
    autoDiscovered := false, status := "online", lastSeen := none,
    lastError := none, agents := [], createdAt := "t0",
    hcSuccess := 0, hcFailure := 0, serverInfo := none }

/-- State with the gateway registered and no agents. -/
def c9State : ManagerState :=
  { emptyState with gateways := [("g", c9Gateway)] }

/-- A payload with two sessions sharing the same session key but different
message counts. -/
def c9CexBatch : List SessionPayload :=
  [{ sessionKey := some "k", messageCount := some 1 },
   { sessionKey := some "k", messageCount := some 2 }]

/-- First reconciliation pass of the duplicate-key payload. -/
def c9CexPass1 : ManagerState × List Event :=
  updateSessionsFromGateway c9State "g" c9CexBatch

/-- Second reconciliation pass with the identical payload. -/
def c9CexPass2 : ManagerState × List Event :=
  updateSessionsFromGateway c9CexPass1.1 "g" c9CexBatch

/-- Test for `agent:update` events. -/
def isAgentUpdate : Event → Bool
  | Event.agentUpdate _ => true
  | _ => false

/-- C9 counterexample: with two consecutive identical `sessions.list`
payloads containing two sessions under the same session key with different
contents, the second pass is NOT silent — the stored entity is the last
writer's and the first rebuilt entity differs from it again, so the second
pass re-emits `agent:update` events (two of them here). -/
theorem c9_counterexample_duplicate_keys :
    ¬ (sessionCompositeIds "g" c9CexBatch).Nodup ∧
    (c9CexPass2.2.filter isAgentUpdate).length = 2 ∧
    ¬ c9CexPass2.2 = [] := by
  decide

/-- Payload with pairwise-distinct session keys for the C9 witness. -/
def c9wBatch : List SessionPayload :=
  [{ sessionKey := some "k1", messageCount := some 1 },
   { sessionKey := some "k2", messageCount := some 2 }]

theorem c9_second_reconcile_pass_silent_witness :
    (updateSessionsFromGateway
        (updateSessionsFromGateway c9State "g" c9wBatch).1 "g" c9wBatch).2 = [] :=
  c9_second_reconcile_pass_silent c9State "g" c9wBatch (by decide)

end TeamControl
